import Mathlib

/-!
# UAVCAN STM32F107 test application (`test_stm32f107/src/main.cpp`)

A shallow embedding of the two control flows of the application:

* `main()`                       : platform init, thread start, activity indicator loop;
* `uavcan_node_thread::main()`   : node bring-up, time synchronizer, diagnostics spin loop.

Every call into a collaborator (HAL, CAN driver, protocol engine, clock,
console) is recorded as an `Event` of a trace.  The values the collaborators
return are taken from an environment `Env` of answer streams: the `k`-th call
of a function receives the `k`-th value of its stream.  The per-function call
counters live in `World`.

The loops `while (true)` / `while (1)` do not end by themselves, so every
program is run under an iteration bound: `Exec.ret = none` means that control
has not come back within the bound.
-/

namespace Stm32Test

/-! ## Data model -/

/-- Modelled from the spec: the type `uavcan::NetworkCompatibilityCheckResult`
is declared outside `main.cpp`.  The spec describes the outcome as a boolean
"compatible" plus the conflicting peer's identity; `main.cpp` reads it through
`isOk()` and `conflicting_node.get()`. -/
structure NetworkCompatibilityCheckResult where
  isOk : Bool
  conflicting_node : Nat
deriving DecidableEq, Repr

/-- Modelled from the spec: `uavcan::Node<16384>` is declared outside
`main.cpp`.  Only the identity of the object matters here: `serial` is the
ordinal of the construction that produced it. -/
structure Node where
  serial : Nat
deriving DecidableEq, Repr

/-- The format strings passed to `lowsyslog`, with their arguments. -/
inductive LogLine where
  /-- Format "Now I am dead x_x %i\n" -/
  | nowIAmDead (status : Int)
  /-- Format "Checking network compatibility...\n" -/
  | checkingNetworkCompatibility
  /-- Format "Node initialization failure: %i, will try agin soon\n" -/
  | nodeInitializationFailure (res : Int)
  /-- Format "Network conflict with %u, will try again soon\n" -/
  | networkConflict (node_id : Nat)
  /-- Format "UAVCAN node started\n" -/
  | uavcanNodeStarted
  /-- Format "Spin failure: %i\n" -/
  | spinFailure (spin_res : Int)
  /-- Format "Time sync master: %u\n" -/
  | timeSyncMaster (node_id : Nat)
  /-- Format "Memory usage: used=%u free=%u\n" -/
  | memoryUsage (used free : Nat)
  /-- Format "CAN errors: %lu %lu\n" -/
  | canErrors (iface0 iface1 : Nat)
  /-- Format "Starting the UAVCAN thread\n" -/
  | startingTheUavcanThread
  /-- Format "UTC %lu sec   Absolute correction: %li usec   Speed correction: %liPPM   Jumps: %lu\n" -/
  | utcClock (utc_sec : Nat) (abs_correction_usec : Int) (speed_correction_ppm : Int) (jumps : Nat)
deriving DecidableEq, Repr

/-- Thread priorities; `main()` uses `LOWPRIO`. -/
inductive Priority where
  | LOWPRIO
deriving DecidableEq, Repr

/-- The values of `uavcan::protocol::debug::LogLevel` used by `main.cpp`. -/
inductive LogLevel where
  | INFO
deriving DecidableEq, Repr

/-- One observable action: a call into a collaborator, with its arguments and,
where the caller uses it, the value that came back. -/
inductive Event where
  /-- Call `halInit()` -/
  | halInit
  /-- Call `chibios_rt::System::init()` -/
  | systemInit
  /-- Call `sdStart(&STDOUT_SD, NULL)` -/
  | sdStart
  /-- Call `can.init(bitrate)` returning `res` -/
  | canInit (bitrate : Nat) (res : Int)
  /-- Call `lowsyslog(...)` -/
  | lowsyslog (line : LogLine)
  /-- Call `palWritePad(GPIO_PORT_LED, GPIO_PIN_LED, state)` -/
  | palWritePadLed (state : Bool)
  /-- Call `sleep(seconds)` -/
  | sleep (seconds : Nat)
  /-- Call `usleep(usec)` -/
  | usleep (usec : Nat)
  /-- Call `node_.construct<...>(can.driver, SystemClock::instance())` -/
  | nodeConstruct (serial : Nat)
  /-- Call `node.setNodeID(id)` -/
  | setNodeID (id : Nat)
  /-- Call `node.setName(name)` -/
  | setName (name : String)
  /-- Call `node.start()` returning `res` -/
  | nodeStart (res : Int)
  /-- Call `node.checkNetworkCompatibility(ncc_result)` returning `res`, with the outcome written -/
  | checkNetworkCompatibility (res : Int) (ncc_result : NetworkCompatibilityCheckResult)
  /-- construction of the function-local static `time_sync_slave(node)` -/
  | timeSyncSlaveConstruct
  /-- Call `time_sync_slave.start()` returning `res` -/
  | timeSyncSlaveStart (res : Int)
  /-- Call `node.setStatusOk()` -/
  | setStatusOk
  /-- Call `node.getLogger().setLevel(level)` -/
  | loggerSetLevel (level : LogLevel)
  /-- Call `node.spin(MonotonicDuration::fromMSec(msec))` returning `res` -/
  | nodeSpin (msec : Nat) (res : Int)
  /-- Call `node.logInfo("app", "UTC %* sec, %* corr, %* jumps", ...)` -/
  | nodeLogInfo (source : String) (utc_sec : Nat) (corr : Int) (jumps : Nat)
  /-- Call `uavcan_node_thread.start(prio)` -/
  | threadStart (prio : Priority)
  /-- Call `can.driver.hadActivity()` returning `active` -/
  | hadActivity (active : Bool)
deriving DecidableEq, Repr

/-- The answers of the collaborators.  A stream `Nat → α` gives the value
returned by the `k`-th call (counted from 0) of the function it is named after. -/
structure Env where
  /-- value returned by `can.init(1000000)` (called from one place, outside any loop) -/
  canInit : Int
  /-- Values of `node.start()` -/
  nodeStart : Nat → Int
  /-- Values of `node.checkNetworkCompatibility(ncc_result)`: return value and outcome written -/
  checkNetworkCompatibility : Nat → Int × NetworkCompatibilityCheckResult
  /-- a default-constructed `NetworkCompatibilityCheckResult` (declared outside `main.cpp`) -/
  nccDefault : NetworkCompatibilityCheckResult
  /-- value returned by `time_sync_slave.start()` (called from one place, outside any loop) -/
  timeSyncSlaveStart : Int
  /-- Values of `node.spin(...)` -/
  nodeSpin : Nat → Int
  /-- Values of `can.driver.hadActivity()` -/
  hadActivity : Nat → Bool
  /-- Values of `time_sync_slave.getMasterNodeID().get()` -/
  getMasterNodeID : Nat → Nat
  /-- Values of `node.getAllocator().getNumUsedBlocks()` -/
  getNumUsedBlocks : Nat → Nat
  /-- Values of `node.getAllocator().getNumFreeBlocks()` -/
  getNumFreeBlocks : Nat → Nat
  /-- Values of `can.driver.getIface(i)->getErrorCount()` (unsigned 64 bit): interface, call number -/
  getErrorCount : Nat → Nat → Nat
  /-- Values of `uavcan_stm32::clock::getUtc().toMSec()` (unsigned 64 bit) -/
  getUtcMSec : Nat → Nat
  /-- Values of `uavcan_stm32::clock::getPrevUtcAdjustment().toUSec()` (signed 64 bit) -/
  getPrevUtcAdjustmentUSec : Nat → Int
  /-- Values of `uavcan_stm32::clock::getUtcSpeedCorrectionPPM()` -/
  getUtcSpeedCorrectionPPM : Nat → Int
  /-- Values of `uavcan_stm32::clock::getUtcAjdustmentJumpCount()` -/
  getUtcAjdustmentJumpCount : Nat → Nat

/-- The mutable state a control flow sees: the lazy-constructor slot `node_`
and, per collaborator function, the number of calls made so far. -/
structure World where
  /-- Slot `uavcan::LazyConstructor<Node> node_` -/
  node_ : Option Node
  /-- number of `Node` objects constructed so far -/
  constructions : Nat
  nodeStartCalls : Nat
  checkCalls : Nat
  nodeSpinCalls : Nat
  hadActivityCalls : Nat
  masterReads : Nat
  usedBlocksReads : Nat
  freeBlocksReads : Nat
  errorCount0Reads : Nat
  errorCount1Reads : Nat
  utcReads : Nat
  prevAdjustmentReads : Nat
  speedCorrectionReads : Nat
  jumpCountReads : Nat
deriving DecidableEq, Repr

/-- The state at power-on: nothing constructed, nothing called. -/
def World.boot : World :=
  ⟨none, 0, 0, 0, 0, 0, 0, 0, 0, 0, 0, 0, 0, 0, 0⟩

/-! ## Execution under an iteration bound -/

/-- What a run has done so far: the trace, and, when control came back,
the returned value with the world it left. -/
structure Exec (α : Type) where
  trace : List Event
  ret : Option (α × World)
deriving DecidableEq, Repr

/-- A piece of the program: run from a world under an iteration bound. -/
def Prog (α : Type) : Type := Nat → World → Exec α

/-- Return without doing anything. -/
def Prog.pure {α : Type} (a : α) : Prog α :=
  fun _ w => ⟨[], some (a, w)⟩

/-- Sequential composition `p; f`: `f` runs only when `p` comes back. -/
def Prog.bind {α β : Type} (p : Prog α) (f : α → Prog β) : Prog β :=
  fun bound w =>
    match p bound w with
    | ⟨t, none⟩ => ⟨t, none⟩
    | ⟨t, some (a, w')⟩ => ⟨t ++ (f a bound w').trace, (f a bound w').ret⟩

instance : Monad Prog where
  pure := Prog.pure
  bind := Prog.bind

/-- How a loop body ends: by `break`, or by reaching its end. -/
inductive LoopCtl where
  | brk
  | cont
deriving DecidableEq, Repr

/-- Run at most `n` iterations of `while (true) { body }`. -/
def whileTrueAux (body : Prog LoopCtl) (bound : Nat) : Nat → World → Exec Unit
  | 0, _ => ⟨[], none⟩
  | n + 1, w =>
    match body bound w with
    | ⟨t, none⟩ => ⟨t, none⟩
    | ⟨t, some (LoopCtl.brk, w')⟩ => ⟨t, some ((), w')⟩
    | ⟨t, some (LoopCtl.cont, w')⟩ =>
      ⟨t ++ (whileTrueAux body bound n w').trace, (whileTrueAux body bound n w').ret⟩

/-- The loop `while (true) { body }`, cut after `bound` iterations. -/
def whileTrue (body : Prog LoopCtl) : Prog Unit :=
  fun bound w => whileTrueAux body bound bound w

/-- The loop `for (int i = lo; i < lo + n; i++) { body }`. -/
def forCount (body : Nat → Prog Unit) : Nat → Nat → Prog Unit
  | 0, _ => Prog.pure ()
  | n + 1, i => Prog.bind (body i) (fun _ => forCount body n (i + 1))

/-- The loop `for (int i = lo; i < hi; i++) { body }`. -/
def forRange (lo hi : Nat) (body : Nat → Prog Unit) : Prog Unit :=
  forCount body (hi - lo) lo

/-- A call that returns nothing and leaves the world as it is. -/
def emit (e : Event) : Prog Unit :=
  fun _ w => ⟨[e], some ((), w)⟩

/-! ## Collaborators -/

def lowsyslog (line : LogLine) : Prog Unit := emit (Event.lowsyslog line)

def sleep (seconds : Nat) : Prog Unit := emit (Event.sleep seconds)

def usleep (usec : Nat) : Prog Unit := emit (Event.usleep usec)

def palWritePadLed (state : Bool) : Prog Unit := emit (Event.palWritePadLed state)

/-- Width of `long` / `unsigned long` on the STM32F107 (32-bit ARM). -/
def LONG_BITS : Nat := 32

/-- The conversion `static_cast<unsigned long>(x)` of an unsigned value. -/
def toUnsignedLong (x : Nat) : Nat := x % 2 ^ LONG_BITS

/-- The conversion `static_cast<long>(x)` of a signed value (two's complement wrap). -/
def toLong (x : Int) : Int :=
  (x + 2 ^ (LONG_BITS - 1)) % 2 ^ LONG_BITS - 2 ^ (LONG_BITS - 1)

/-- Modelled from the spec: `LazyConstructor::isConstructed()` (declared
outside `main.cpp`): whether the slot holds an object. -/
def node_isConstructed : Prog Bool :=
  fun _ w => ⟨[], some (w.node_.isSome, w)⟩

/-- Modelled from the spec: `LazyConstructor::construct(...)` (declared
outside `main.cpp`): builds a new `Node` in the slot.  The model builds a
fresh object whatever the slot held, so that a second construction is
visible. -/
def node_construct : Prog Unit :=
  fun _ w => ⟨[Event.nodeConstruct w.constructions],
    some ((), { w with node_ := some ⟨w.constructions⟩, constructions := w.constructions + 1 })⟩

/-- Modelled from the spec: `LazyConstructor::operator*` (declared outside
`main.cpp`): the object in the slot; on an empty slot control does not come
back. -/
def node_deref : Prog Node :=
  fun _ w =>
    match w.node_ with
    | some n => ⟨[], some (n, w)⟩
    | none => ⟨[], none⟩

/-- The call `node.start()`. -/
def nodeStart (env : Env) : Prog Int :=
  fun _ w => ⟨[Event.nodeStart (env.nodeStart w.nodeStartCalls)],
    some (env.nodeStart w.nodeStartCalls, { w with nodeStartCalls := w.nodeStartCalls + 1 })⟩

/-- The call `node.checkNetworkCompatibility(ncc_result)`: the return value
and the outcome written through the reference. -/
def checkNetworkCompatibility (env : Env) : Prog (Int × NetworkCompatibilityCheckResult) :=
  fun _ w =>
    ⟨[Event.checkNetworkCompatibility (env.checkNetworkCompatibility w.checkCalls).1
        (env.checkNetworkCompatibility w.checkCalls).2],
      some (env.checkNetworkCompatibility w.checkCalls, { w with checkCalls := w.checkCalls + 1 })⟩

/-- The call `time_sync_slave.start()`. -/
def timeSyncSlaveStart (env : Env) : Prog Int :=
  fun _ w => ⟨[Event.timeSyncSlaveStart env.timeSyncSlaveStart], some (env.timeSyncSlaveStart, w)⟩

/-- The call `node.spin(MonotonicDuration::fromMSec(msec))`. -/
def nodeSpin (env : Env) (msec : Nat) : Prog Int :=
  fun _ w => ⟨[Event.nodeSpin msec (env.nodeSpin w.nodeSpinCalls)],
    some (env.nodeSpin w.nodeSpinCalls, { w with nodeSpinCalls := w.nodeSpinCalls + 1 })⟩

/-- The call `can.driver.hadActivity()`. -/
def hadActivity (env : Env) : Prog Bool :=
  fun _ w => ⟨[Event.hadActivity (env.hadActivity w.hadActivityCalls)],
    some (env.hadActivity w.hadActivityCalls, { w with hadActivityCalls := w.hadActivityCalls + 1 })⟩

/-- The call `can.init(bitrate)`. -/
def canInit (env : Env) (bitrate : Nat) : Prog Int :=
  fun _ w => ⟨[Event.canInit bitrate env.canInit], some (env.canInit, w)⟩

/-! Read-only queries: they leave no event, only their call counter moves. -/

def getMasterNodeID (env : Env) : Prog Nat :=
  fun _ w => ⟨[], some (env.getMasterNodeID w.masterReads, { w with masterReads := w.masterReads + 1 })⟩

def getNumUsedBlocks (env : Env) : Prog Nat :=
  fun _ w => ⟨[], some (env.getNumUsedBlocks w.usedBlocksReads,
    { w with usedBlocksReads := w.usedBlocksReads + 1 })⟩

def getNumFreeBlocks (env : Env) : Prog Nat :=
  fun _ w => ⟨[], some (env.getNumFreeBlocks w.freeBlocksReads,
    { w with freeBlocksReads := w.freeBlocksReads + 1 })⟩

def getErrorCount0 (env : Env) : Prog Nat :=
  fun _ w => ⟨[], some (env.getErrorCount 0 w.errorCount0Reads,
    { w with errorCount0Reads := w.errorCount0Reads + 1 })⟩

def getErrorCount1 (env : Env) : Prog Nat :=
  fun _ w => ⟨[], some (env.getErrorCount 1 w.errorCount1Reads,
    { w with errorCount1Reads := w.errorCount1Reads + 1 })⟩

def getUtcMSec (env : Env) : Prog Nat :=
  fun _ w => ⟨[], some (env.getUtcMSec w.utcReads, { w with utcReads := w.utcReads + 1 })⟩

def getPrevUtcAdjustmentUSec (env : Env) : Prog Int :=
  fun _ w => ⟨[], some (env.getPrevUtcAdjustmentUSec w.prevAdjustmentReads,
    { w with prevAdjustmentReads := w.prevAdjustmentReads + 1 })⟩

def getUtcSpeedCorrectionPPM (env : Env) : Prog Int :=
  fun _ w => ⟨[], some (env.getUtcSpeedCorrectionPPM w.speedCorrectionReads,
    { w with speedCorrectionReads := w.speedCorrectionReads + 1 })⟩

def getUtcAjdustmentJumpCount (env : Env) : Prog Nat :=
  fun _ w => ⟨[], some (env.getUtcAjdustmentJumpCount w.jumpCountReads,
    { w with jumpCountReads := w.jumpCountReads + 1 })⟩

/-! ## The program (`main.cpp`) -/

/-- Source: `Node& getNode()` (lines 21-28). -/
def getNode : Prog Node := do
  let constructed ← node_isConstructed
  if !constructed then
    node_construct
  node_deref

/-- Source: `void ledSet(bool state)` (lines 30-33). -/
def ledSet (state : Bool) : Prog Unit :=
  palWritePadLed state

/-- Source: `int init()` (lines 35-51).  Both ways out of the `if` reach `leave:`. -/
def init (env : Env) : Prog Int := do
  emit Event.halInit
  emit Event.systemInit
  emit Event.sdStart
  let res ← canInit env 1000000
  if res < 0 then
    return res
  return res

/-- Body of the `while (1)` of `die` (lines 59-62); it has no `break`. -/
def dieBody : Prog LoopCtl := do
  ledSet false
  sleep 1
  ledSet true
  sleep 1
  return LoopCtl.cont

/-- Source: `void die(int status)` (lines 53-64). -/
def die (status : Int) : Prog Unit := do
  lowsyslog (LogLine.nowIAmDead status)
  whileTrue dieBody

/-- Body of the bring-up loop of the node thread (lines 84-106). -/
def bringUpBody (env : Env) : Prog LoopCtl := do
  let res0 ← nodeStart env
  let (res, ncc_result) ←
    (if res0 ≥ 0 then do
      lowsyslog LogLine.checkingNetworkCompatibility
      checkNetworkCompatibility env
    else
      return (res0, env.nccDefault))
  if res < 0 then
    lowsyslog (LogLine.nodeInitializationFailure res)
  else if !ncc_result.isOk then
    lowsyslog (LogLine.networkConflict ncc_result.conflicting_node)
  else
    return LoopCtl.brk
  sleep 3
  return LoopCtl.cont

/-- The bring-up loop `while (true) { ... }` (lines 82-107). -/
def bringUpLoop (env : Env) : Prog Unit :=
  whileTrue (bringUpBody env)

/-- The block "Time synchronizer" (lines 112-119). -/
def timeSynchronizer (env : Env) : Prog Unit := do
  emit Event.timeSyncSlaveConstruct
  let res ← timeSyncSlaveStart env
  if res < 0 then
    die res

/-- Body of the main loop of the node thread (lines 129-147); it has no `break`. -/
def spinBody (env : Env) : Prog LoopCtl := do
  let spin_res ← nodeSpin env 5000
  if spin_res < 0 then
    lowsyslog (LogLine.spinFailure spin_res)
  let master ← getMasterNodeID env
  lowsyslog (LogLine.timeSyncMaster master)
  let used ← getNumUsedBlocks env
  let free ← getNumFreeBlocks env
  lowsyslog (LogLine.memoryUsage used free)
  let err0 ← getErrorCount0 env
  let err1 ← getErrorCount1 env
  lowsyslog (LogLine.canErrors (toUnsignedLong err0) (toUnsignedLong err1))
  let utc ← getUtcMSec env
  let corr ← getUtcSpeedCorrectionPPM env
  let jumps ← getUtcAjdustmentJumpCount env
  emit (Event.nodeLogInfo "app" (utc / 1000) corr jumps)
  return LoopCtl.cont

/-- The block "Main loop" (lines 124-148). -/
def mainLoop (env : Env) : Prog Unit := do
  lowsyslog LogLine.uavcanNodeStarted
  emit Event.setStatusOk
  emit (Event.loggerSetLevel LogLevel.INFO)
  whileTrue (spinBody env)

/-- The block "Setting up the node parameters" (lines 74-77). -/
def nodeSetup : Prog Unit := do
  let _node ← getNode
  emit (Event.setNodeID 64)
  emit (Event.setName "org.uavcan.stm32_test_stm32f107")

/-- Source: `msg_t main()` of `uavcan_node_thread` (lines 69-150). -/
def uavcan_node_thread.main (env : Env) : Prog Unit := do
  nodeSetup
  bringUpLoop env
  timeSynchronizer env
  mainLoop env

/-- Body of the `for` loop of `::main()` (lines 171-172). -/
def indicatorStep (env : Env) : Prog Unit := do
  let active ← hadActivity env
  ledSet active
  usleep 25000

/-- Body of the `while (true)` of `::main()` (lines 169-180); it has no `break`. -/
def indicatorBody (env : Env) : Prog LoopCtl := do
  forRange 0 200 (fun _ => indicatorStep env)
  let utc ← getUtcMSec env
  let adj ← getPrevUtcAdjustmentUSec env
  let ppm ← getUtcSpeedCorrectionPPM env
  let jumps ← getUtcAjdustmentJumpCount env
  lowsyslog (LogLine.utcClock (toUnsignedLong (utc / 1000)) (toLong adj) ppm jumps)
  return LoopCtl.cont

/-- The indicator loop of `::main()` (lines 167-181). -/
def indicatorLoop (env : Env) : Prog Unit :=
  whileTrue (indicatorBody env)

/-- Source: `int main()` (lines 156-182). -/
def main (env : Env) : Prog Unit := do
  let init_res ← init env
  if init_res ≠ 0 then
    die init_res
  lowsyslog LogLine.startingTheUavcanThread
  emit (Event.threadStart Priority.LOWPRIO)
  indicatorLoop env

/-! ## Observations on traces -/

/-- A call of `sleep`. -/
def Event.isSleep : Event → Bool
  | Event.sleep _ => true
  | _ => false

/-- Total time, in seconds, spent in `sleep` along a trace. -/
def sleepSeconds : List Event → Nat
  | [] => 0
  | Event.sleep s :: t => s + sleepSeconds t
  | _ :: t => sleepSeconds t

/-- A call of `node.start()`. -/
def Event.isNodeStart : Event → Bool
  | Event.nodeStart _ => true
  | _ => false

/-- A call of `node.checkNetworkCompatibility`. -/
def Event.isCheck : Event → Bool
  | Event.checkNetworkCompatibility _ _ => true
  | _ => false

/-- The line "Node initialization failure". -/
def Event.isFailureLog : Event → Bool
  | Event.lowsyslog (LogLine.nodeInitializationFailure _) => true
  | _ => false

/-- The line "Network conflict". -/
def Event.isConflictLog : Event → Bool
  | Event.lowsyslog (LogLine.networkConflict _) => true
  | _ => false

/-- The line "Now I am dead", the first action of `die`. -/
def Event.isDeadLog : Event → Bool
  | Event.lowsyslog (LogLine.nowIAmDead _) => true
  | _ => false

/-- A call of `time_sync_slave.start()`. -/
def Event.isTimeSyncStart : Event → Bool
  | Event.timeSyncSlaveStart _ => true
  | _ => false

/-- A call of `node.spin`. -/
def Event.isNodeSpin : Event → Bool
  | Event.nodeSpin _ _ => true
  | _ => false

/-- An action of the block "Main loop" of the node thread: the "UAVCAN node
started" line, `setStatusOk`, the logger's `setLevel`, `node.spin`, and the
lines of the health report. -/
def Event.isDiagnostics : Event → Bool
  | Event.lowsyslog LogLine.uavcanNodeStarted => true
  | Event.setStatusOk => true
  | Event.loggerSetLevel _ => true
  | Event.nodeSpin _ _ => true
  | Event.lowsyslog (LogLine.spinFailure _) => true
  | Event.lowsyslog (LogLine.timeSyncMaster _) => true
  | Event.lowsyslog (LogLine.memoryUsage _ _) => true
  | Event.lowsyslog (LogLine.canErrors _ _) => true
  | Event.nodeLogInfo _ _ _ _ => true
  | _ => false

/-- An action of the bring-up loop. -/
def Event.isBringUp : Event → Bool
  | Event.nodeStart _ => true
  | Event.lowsyslog LogLine.checkingNetworkCompatibility => true
  | Event.checkNetworkCompatibility _ _ => true
  | Event.lowsyslog (LogLine.nodeInitializationFailure _) => true
  | Event.lowsyslog (LogLine.networkConflict _) => true
  | Event.sleep 3 => true
  | _ => false

/-- A start of the node thread. -/
def Event.isThreadStart : Event → Bool
  | Event.threadStart _ => true
  | _ => false

/-- A construction of the `Node`. -/
def Event.isNodeConstruct : Event → Bool
  | Event.nodeConstruct _ => true
  | _ => false

/-- A sample of the activity flag. -/
def Event.isHadActivity : Event → Bool
  | Event.hadActivity _ => true
  | _ => false

/-- The value of a sample of the activity flag. -/
def Event.sampled : Event → Option Bool
  | Event.hadActivity b => some b
  | _ => none

/-- The value of a write to the LED. -/
def Event.ledWritten : Event → Option Bool
  | Event.palWritePadLed b => some b
  | _ => none

/-- The clock-diagnostic line of `::main()`. -/
def Event.isUtcClockLog : Event → Bool
  | Event.lowsyslog (LogLine.utcClock _ _ _ _) => true
  | _ => false

/-- An action of the block "Setting up the node parameters". -/
def Event.isNodeSetup : Event → Bool
  | Event.nodeConstruct _ => true
  | Event.setNodeID _ => true
  | Event.setName _ => true
  | _ => false

/-- The `i`-th action (from 0) of the endless repetition of
(LED off, sleep 1 s, LED on, sleep 1 s). -/
def blinkPattern (i : Nat) : Event :=
  match i % 4 with
  | 0 => Event.palWritePadLed false
  | 1 => Event.sleep 1
  | 2 => Event.palWritePadLed true
  | _ => Event.sleep 1

/-- The calls of `p` made `k` times in a row, with the values they returned. -/
def callTimes {α : Type} (p : Prog α) : Nat → Prog (List α)
  | 0 => Prog.pure []
  | k + 1 => Prog.bind p (fun a => Prog.bind (callTimes p k) (fun l => Prog.pure (a :: l)))

/-! ## Scenarios -/

/-- An environment in which every call succeeds and nothing happens on the bus. -/
def Env.quiet : Env where
  canInit := 0
  nodeStart := fun _ => 0
  checkNetworkCompatibility := fun _ => (0, ⟨true, 0⟩)
  nccDefault := ⟨true, 0⟩
  timeSyncSlaveStart := 0
  nodeSpin := fun _ => 0
  hadActivity := fun _ => false
  getMasterNodeID := fun _ => 0
  getNumUsedBlocks := fun _ => 0
  getNumFreeBlocks := fun _ => 0
  getErrorCount := fun _ _ => 0
  getUtcMSec := fun _ => 0
  getPrevUtcAdjustmentUSec := fun _ => 0
  getUtcSpeedCorrectionPPM := fun _ => 0
  getUtcAjdustmentJumpCount := fun _ => 0

/-- Scenario of the spec: `start()` fails twice (with -1), then succeeds. -/
def Env.twoFailedStarts : Env :=
  { Env.quiet with nodeStart := fun k => if k < 2 then -1 else 0 }

/-- Scenario of the spec: the first compatibility check reports a conflict
with node 42, the second one passes. -/
def Env.conflictWith42 : Env :=
  { Env.quiet with
    checkNetworkCompatibility := fun k => if k = 0 then (0, ⟨false, 42⟩) else (0, ⟨true, 0⟩) }

/-- Scenario: `start()` succeeds, the compatibility check itself fails with -3
while the outcome it leaves reads "compatible". -/
def Env.checkFails : Env :=
  { Env.quiet with checkNetworkCompatibility := fun _ => (-3, ⟨true, 0⟩) }

/-- The actions of iteration `k` (from 0) of the main loop of the node thread
entered in world `w`, as the loop body (lines 129-147) lists them. -/
def spinActions (env : Env) (w : World) (k : Nat) : List Event :=
  [Event.nodeSpin 5000 (env.nodeSpin (w.nodeSpinCalls + k))] ++
  (if env.nodeSpin (w.nodeSpinCalls + k) < 0 then
    [Event.lowsyslog (LogLine.spinFailure (env.nodeSpin (w.nodeSpinCalls + k)))]
  else []) ++
  [Event.lowsyslog (LogLine.timeSyncMaster (env.getMasterNodeID (w.masterReads + k))),
   Event.lowsyslog (LogLine.memoryUsage (env.getNumUsedBlocks (w.usedBlocksReads + k))
     (env.getNumFreeBlocks (w.freeBlocksReads + k))),
   Event.lowsyslog (LogLine.canErrors
     (toUnsignedLong (env.getErrorCount 0 (w.errorCount0Reads + k)))
     (toUnsignedLong (env.getErrorCount 1 (w.errorCount1Reads + k)))),
   Event.nodeLogInfo "app" (env.getUtcMSec (w.utcReads + k) / 1000)
     (env.getUtcSpeedCorrectionPPM (w.speedCorrectionReads + k))
     (env.getUtcAjdustmentJumpCount (w.jumpCountReads + k))]

/-- The world after one pass through the body of the main loop. -/
def World.afterSpin (w : World) : World :=
  { w with
    nodeSpinCalls := w.nodeSpinCalls + 1
    masterReads := w.masterReads + 1
    usedBlocksReads := w.usedBlocksReads + 1
    freeBlocksReads := w.freeBlocksReads + 1
    errorCount0Reads := w.errorCount0Reads + 1
    errorCount1Reads := w.errorCount1Reads + 1
    utcReads := w.utcReads + 1
    speedCorrectionReads := w.speedCorrectionReads + 1
    jumpCountReads := w.jumpCountReads + 1 }

/-- Scenario: bring-up succeeds at once, `time_sync_slave.start()` fails with -7. -/
def Env.timeSyncFails : Env :=
  { Env.quiet with timeSyncSlaveStart := -7 }

/-- The actions of one pass (sample number `j`) through the `for` loop of
`::main()`: sample the activity flag, write it to the LED, sleep 25 ms. -/
def sampleActions (env : Env) (j : Nat) : List Event :=
  [Event.hadActivity (env.hadActivity j), Event.palWritePadLed (env.hadActivity j),
    Event.usleep 25000]

/-- The actions of outer cycle `m` (from 0) of the indicator loop entered in
world `w`: 200 samples, then the clock-diagnostic line. -/
def cycleActions (env : Env) (w : World) (m : Nat) : List Event :=
  (List.range 200).flatMap (fun i => sampleActions env (w.hadActivityCalls + 200 * m + i)) ++
  [Event.lowsyslog (LogLine.utcClock
    (toUnsignedLong (env.getUtcMSec (w.utcReads + m) / 1000))
    (toLong (env.getPrevUtcAdjustmentUSec (w.prevAdjustmentReads + m)))
    (env.getUtcSpeedCorrectionPPM (w.speedCorrectionReads + m))
    (env.getUtcAjdustmentJumpCount (w.jumpCountReads + m)))]

/-- The world after one outer cycle of the indicator loop. -/
def World.afterCycle (w : World) : World :=
  { w with
    hadActivityCalls := w.hadActivityCalls + 200
    utcReads := w.utcReads + 1
    prevAdjustmentReads := w.prevAdjustmentReads + 1
    speedCorrectionReads := w.speedCorrectionReads + 1
    jumpCountReads := w.jumpCountReads + 1 }

/-- Scenario: `can.init(1000000)` returns the positive value 5. -/
def Env.canInitPositive : Env :=
  { Env.quiet with canInit := 5 }

/-! ## Running the pieces -/

theorem bind_eq {α β : Type} (p : Prog α) (f : α → Prog β) : (p >>= f) = Prog.bind p f := rfl

theorem pure_eq {α : Type} (a : α) : (pure a : Prog α) = Prog.pure a := rfl

theorem whileTrueAux_cont (body : Prog LoopCtl) (bound n : Nat) (w w' : World) (t : List Event)
    (h : body bound w = ⟨t, some (LoopCtl.cont, w')⟩) :
    whileTrueAux body bound (n + 1) w =
      ⟨t ++ (whileTrueAux body bound n w').trace, (whileTrueAux body bound n w').ret⟩ := by
  simp [whileTrueAux, h]

theorem whileTrueAux_brk (body : Prog LoopCtl) (bound n : Nat) (w w' : World) (t : List Event)
    (h : body bound w = ⟨t, some (LoopCtl.brk, w')⟩) :
    whileTrueAux body bound (n + 1) w = ⟨t, some ((), w')⟩ := by
  simp [whileTrueAux, h]

/-- One pass through the body of `die`. -/
theorem dieBody_run (bound : Nat) (w : World) :
    dieBody bound w =
      ⟨[Event.palWritePadLed false, Event.sleep 1, Event.palWritePadLed true, Event.sleep 1],
        some (LoopCtl.cont, w)⟩ := by
  simp [dieBody, bind_eq, pure_eq, Prog.bind, Prog.pure, ledSet, palWritePadLed, sleep, emit]

theorem blinkPattern_shift (i : Nat) : blinkPattern (i + 4) = blinkPattern i := by
  simp [blinkPattern]

theorem blinkPattern_block (n : Nat) :
    (List.range (4 * (n + 1))).map blinkPattern =
      [Event.palWritePadLed false, Event.sleep 1, Event.palWritePadLed true, Event.sleep 1] ++
        (List.range (4 * n)).map blinkPattern := by
  have e : 4 * (n + 1) = 4 * n + 1 + 1 + 1 + 1 := by ring
  have hshift : (blinkPattern ∘ Nat.succ ∘ Nat.succ ∘ Nat.succ ∘ Nat.succ) = blinkPattern := by
    funext i
    exact blinkPattern_shift i
  rw [e, List.range_succ_eq_map, List.range_succ_eq_map (4 * n + 1 + 1),
    List.range_succ_eq_map (4 * n + 1), List.range_succ_eq_map (4 * n)]
  simp only [List.map_cons, List.map_map, List.cons_append, List.nil_append, hshift,
    Function.comp_apply]
  rfl

theorem die_loop_run (bound n : Nat) (w : World) :
    whileTrueAux dieBody bound n w = ⟨(List.range (4 * n)).map blinkPattern, none⟩ := by
  induction n with
  | zero => rfl
  | succ m ih =>
    rw [whileTrueAux_cont dieBody bound m w w _ (dieBody_run bound w), ih, blinkPattern_block]

theorem die_run (status : Int) (bound : Nat) (w : World) :
    die status bound w =
      ⟨Event.lowsyslog (LogLine.nowIAmDead status) :: (List.range (4 * bound)).map blinkPattern,
        none⟩ := by
  simp [die, bind_eq, Prog.bind, lowsyslog, emit, whileTrue, die_loop_run]

/-- The world after a bring-up attempt whose `start()` failed. -/
theorem bringUpBody_start_failed (env : Env) (bound : Nat) (w : World)
    (hs : env.nodeStart w.nodeStartCalls < 0) :
    bringUpBody env bound w =
      ⟨[Event.nodeStart (env.nodeStart w.nodeStartCalls),
        Event.lowsyslog (LogLine.nodeInitializationFailure (env.nodeStart w.nodeStartCalls)),
        Event.sleep 3],
        some (LoopCtl.cont, { w with nodeStartCalls := w.nodeStartCalls + 1 })⟩ := by
  have hs' : ¬ (0 ≤ env.nodeStart w.nodeStartCalls) := by omega
  simp [bringUpBody, bind_eq, pure_eq, Prog.bind, Prog.pure, nodeStart, lowsyslog, sleep, emit,
    hs, hs']

theorem bringUpBody_check_failed (env : Env) (bound : Nat) (w : World)
    (hs : 0 ≤ env.nodeStart w.nodeStartCalls)
    (hr : (env.checkNetworkCompatibility w.checkCalls).1 < 0) :
    bringUpBody env bound w =
      ⟨[Event.nodeStart (env.nodeStart w.nodeStartCalls),
        Event.lowsyslog LogLine.checkingNetworkCompatibility,
        Event.checkNetworkCompatibility (env.checkNetworkCompatibility w.checkCalls).1
          (env.checkNetworkCompatibility w.checkCalls).2,
        Event.lowsyslog (LogLine.nodeInitializationFailure
          (env.checkNetworkCompatibility w.checkCalls).1),
        Event.sleep 3],
        some (LoopCtl.cont,
          { w with nodeStartCalls := w.nodeStartCalls + 1, checkCalls := w.checkCalls + 1 })⟩ := by
  simp [bringUpBody, bind_eq, pure_eq, Prog.bind, Prog.pure, nodeStart, lowsyslog, sleep, emit,
    checkNetworkCompatibility, hs, hr]

theorem bringUpBody_conflict (env : Env) (bound : Nat) (w : World)
    (hs : 0 ≤ env.nodeStart w.nodeStartCalls)
    (hr : 0 ≤ (env.checkNetworkCompatibility w.checkCalls).1)
    (hc : (env.checkNetworkCompatibility w.checkCalls).2.isOk = false) :
    bringUpBody env bound w =
      ⟨[Event.nodeStart (env.nodeStart w.nodeStartCalls),
        Event.lowsyslog LogLine.checkingNetworkCompatibility,
        Event.checkNetworkCompatibility (env.checkNetworkCompatibility w.checkCalls).1
          (env.checkNetworkCompatibility w.checkCalls).2,
        Event.lowsyslog (LogLine.networkConflict
          (env.checkNetworkCompatibility w.checkCalls).2.conflicting_node),
        Event.sleep 3],
        some (LoopCtl.cont,
          { w with nodeStartCalls := w.nodeStartCalls + 1, checkCalls := w.checkCalls + 1 })⟩ := by
  have hr' : ¬ ((env.checkNetworkCompatibility w.checkCalls).1 < 0) := by omega
  simp [bringUpBody, bind_eq, pure_eq, Prog.bind, Prog.pure, nodeStart, lowsyslog, sleep, emit,
    checkNetworkCompatibility, hs, hr', hc]

theorem bringUpBody_compatible (env : Env) (bound : Nat) (w : World)
    (hs : 0 ≤ env.nodeStart w.nodeStartCalls)
    (hr : 0 ≤ (env.checkNetworkCompatibility w.checkCalls).1)
    (hc : (env.checkNetworkCompatibility w.checkCalls).2.isOk = true) :
    bringUpBody env bound w =
      ⟨[Event.nodeStart (env.nodeStart w.nodeStartCalls),
        Event.lowsyslog LogLine.checkingNetworkCompatibility,
        Event.checkNetworkCompatibility (env.checkNetworkCompatibility w.checkCalls).1
          (env.checkNetworkCompatibility w.checkCalls).2],
        some (LoopCtl.brk,
          { w with nodeStartCalls := w.nodeStartCalls + 1, checkCalls := w.checkCalls + 1 })⟩ := by
  have hr' : ¬ ((env.checkNetworkCompatibility w.checkCalls).1 < 0) := by omega
  simp [bringUpBody, bind_eq, pure_eq, Prog.bind, Prog.pure, nodeStart, lowsyslog, sleep, emit,
    checkNetworkCompatibility, hs, hr', hc]

/-! ### Lists of per-iteration actions -/

theorem flatMap_range_succ_front {α : Type} (f : Nat → List α) (n : Nat) :
    (List.range (n + 1)).flatMap f = f 0 ++ (List.range n).flatMap (fun k => f (k + 1)) := by
  rw [List.range_succ_eq_map, List.flatMap_cons, List.flatMap_map]

theorem flatMap_range_succ_back {α : Type} (f : Nat → List α) (n : Nat) :
    (List.range (n + 1)).flatMap f = (List.range n).flatMap f ++ f n := by
  rw [List.range_succ, List.flatMap_append, List.flatMap_singleton]

theorem countP_flatMap_range {α : Type} (p : α → Bool) (f : Nat → List α) (c : Nat)
    (h : ∀ k, (f k).countP p = c) (n : Nat) :
    ((List.range n).flatMap f).countP p = n * c := by
  induction n with
  | zero => simp
  | succ m ih => rw [flatMap_range_succ_back, List.countP_append, ih, h, Nat.succ_mul]

theorem filter_flatMap_range_single {α : Type} (p : α → Bool) (f : Nat → List α) (x : α)
    (h : ∀ k, (f k).filter p = [x]) (n : Nat) :
    ((List.range n).flatMap f).filter p = List.replicate n x := by
  induction n with
  | zero => simp
  | succ m ih => rw [flatMap_range_succ_back, List.filter_append, ih, h, List.replicate_succ']

theorem filter_flatMap_range_nil {α : Type} (p : α → Bool) (f : Nat → List α)
    (h : ∀ k, (f k).filter p = []) (n : Nat) :
    ((List.range n).flatMap f).filter p = [] := by
  induction n with
  | zero => simp
  | succ m ih => rw [flatMap_range_succ_back, List.filter_append, ih, h, List.append_nil]

theorem sleepSeconds_append (a b : List Event) :
    sleepSeconds (a ++ b) = sleepSeconds a + sleepSeconds b := by
  induction a with
  | nil => simp [sleepSeconds]
  | cons e t ih => cases e <;> simp [sleepSeconds, ih, Nat.add_assoc]

theorem sleepSeconds_flatMap_range (f : Nat → List Event) (c : Nat)
    (h : ∀ k, sleepSeconds (f k) = c) (n : Nat) :
    sleepSeconds ((List.range n).flatMap f) = n * c := by
  induction n with
  | zero => simp [sleepSeconds]
  | succ m ih => rw [flatMap_range_succ_back, sleepSeconds_append, ih, h, Nat.succ_mul]

/-! ### The bring-up loop -/

/-- While `start()` keeps failing, each iteration of the bring-up loop logs the
failure, sleeps 3 s and goes round again. -/
theorem bringUp_failed_starts (env : Env) (bound : Nat) :
    ∀ (n m : Nat) (w : World),
      (∀ k, k < n → env.nodeStart (w.nodeStartCalls + k) < 0) →
      whileTrueAux (bringUpBody env) bound (n + m) w =
        ⟨(List.range n).flatMap (fun k =>
            [Event.nodeStart (env.nodeStart (w.nodeStartCalls + k)),
             Event.lowsyslog (LogLine.nodeInitializationFailure
               (env.nodeStart (w.nodeStartCalls + k))),
             Event.sleep 3]) ++
          (whileTrueAux (bringUpBody env) bound m
            { w with nodeStartCalls := w.nodeStartCalls + n }).trace,
         (whileTrueAux (bringUpBody env) bound m
            { w with nodeStartCalls := w.nodeStartCalls + n }).ret⟩ := by
  intro n
  induction n with
  | zero =>
    intro m w _
    simp
  | succ n ih =>
    intro m w hfail
    have h0 : env.nodeStart w.nodeStartCalls < 0 := by
      have := hfail 0 (Nat.succ_pos n)
      simpa using this
    have e : n + 1 + m = (n + m) + 1 := by omega
    rw [e, whileTrueAux_cont _ bound (n + m) w _ _ (bringUpBody_start_failed env bound w h0)]
    have hfail' : ∀ k, k < n →
        env.nodeStart (({ w with nodeStartCalls := w.nodeStartCalls + 1 } : World).nodeStartCalls + k)
          < 0 := by
      intro k hk
      have := hfail (k + 1) (Nat.succ_lt_succ hk)
      have e2 : w.nodeStartCalls + 1 + k = w.nodeStartCalls + (k + 1) := by omega
      simpa [e2] using this
    rw [ih m _ hfail', flatMap_range_succ_front]
    have e3 : ∀ k, w.nodeStartCalls + 1 + k = w.nodeStartCalls + (k + 1) := by intro k; omega
    have e4 : w.nodeStartCalls + 1 + n = w.nodeStartCalls + (n + 1) := by omega
    simp [e3, e4]

/-! ### The main loop of the node thread -/

theorem spinBody_run (env : Env) (bound : Nat) (w : World) :
    spinBody env bound w = ⟨spinActions env w 0, some (LoopCtl.cont, w.afterSpin)⟩ := by
  by_cases h : env.nodeSpin w.nodeSpinCalls < 0 <;>
    simp [spinBody, spinActions, World.afterSpin, bind_eq, pure_eq, Prog.bind, Prog.pure,
      nodeSpin, lowsyslog, emit, getMasterNodeID, getNumUsedBlocks, getNumFreeBlocks,
      getErrorCount0, getErrorCount1, getUtcMSec, getUtcSpeedCorrectionPPM,
      getUtcAjdustmentJumpCount, h]

theorem spinActions_afterSpin (env : Env) (w : World) (k : Nat) :
    spinActions env w.afterSpin k = spinActions env w (k + 1) := by
  have e : ∀ a : Nat, a + 1 + k = a + (k + 1) := by intro a; omega
  simp only [spinActions, World.afterSpin, e]

theorem spin_loop_run (env : Env) (bound : Nat) :
    ∀ (n : Nat) (w : World),
      whileTrueAux (spinBody env) bound n w = ⟨(List.range n).flatMap (spinActions env w), none⟩ := by
  intro n
  induction n with
  | zero => intro w; rfl
  | succ n ih =>
    intro w
    have e : spinActions env w.afterSpin = fun k => spinActions env w (k + 1) :=
      funext (spinActions_afterSpin env w)
    rw [whileTrueAux_cont _ _ n _ _ _ (spinBody_run env bound w), ih, flatMap_range_succ_front, e]

theorem mainLoop_run (env : Env) (bound : Nat) (w : World) :
    mainLoop env bound w =
      ⟨[Event.lowsyslog LogLine.uavcanNodeStarted, Event.setStatusOk,
        Event.loggerSetLevel LogLevel.INFO] ++ (List.range bound).flatMap (spinActions env w),
       none⟩ := by
  simp [mainLoop, bind_eq, Prog.bind, lowsyslog, emit, whileTrue, spin_loop_run]

/-! ### The node thread as a whole -/

theorem getNode_unconstructed (bound : Nat) (w : World) (h : w.node_ = none) :
    getNode bound w =
      ⟨[Event.nodeConstruct w.constructions],
        some (⟨w.constructions⟩,
          { w with node_ := some ⟨w.constructions⟩, constructions := w.constructions + 1 })⟩ := by
  simp [getNode, bind_eq, pure_eq, Prog.bind, Prog.pure, node_isConstructed, node_construct,
    node_deref, h]

theorem getNode_constructed (bound : Nat) (w : World) (n : Node) (h : w.node_ = some n) :
    getNode bound w = ⟨[], some (n, w)⟩ := by
  simp [getNode, bind_eq, pure_eq, Prog.bind, Prog.pure, node_isConstructed, node_construct,
    node_deref, h]

/-- The set-up block always comes back, having done set-up actions only. -/
theorem nodeSetup_returns (bound : Nat) (w : World) :
    ∃ t w1, nodeSetup bound w = ⟨t, some ((), w1)⟩ ∧ ∀ e ∈ t, e.isNodeSetup = true := by
  cases h : w.node_ with
  | none =>
    refine ⟨[Event.nodeConstruct w.constructions, Event.setNodeID 64,
      Event.setName "org.uavcan.stm32_test_stm32f107"],
      { w with node_ := some ⟨w.constructions⟩, constructions := w.constructions + 1 }, ?_, ?_⟩
    · simp [nodeSetup, bind_eq, Prog.bind, getNode_unconstructed bound w h, emit]
    · intro e he
      simp at he
      rcases he with rfl | rfl | rfl <;> rfl
  | some n =>
    refine ⟨[Event.setNodeID 64, Event.setName "org.uavcan.stm32_test_stm32f107"], w, ?_, ?_⟩
    · simp [nodeSetup, bind_eq, Prog.bind, getNode_constructed bound w n h, emit]
    · intro e he
      simp at he
      rcases he with rfl | rfl <;> rfl

/-- An iteration of the bring-up loop either goes round again, or leaves the
loop right after a successful start and a successful check that reads
"compatible". -/
theorem bringUpBody_cases (env : Env) (bound : Nat) (w : World) :
    (∃ tb w', bringUpBody env bound w = ⟨tb, some (LoopCtl.cont, w')⟩ ∧
      ∀ e ∈ tb, e.isBringUp = true) ∨
    (∃ a b out w', bringUpBody env bound w =
        ⟨[Event.nodeStart a, Event.lowsyslog LogLine.checkingNetworkCompatibility,
          Event.checkNetworkCompatibility b out], some (LoopCtl.brk, w')⟩ ∧
      0 ≤ a ∧ 0 ≤ b ∧ out.isOk = true) := by
  by_cases hs : 0 ≤ env.nodeStart w.nodeStartCalls
  · by_cases hr : 0 ≤ (env.checkNetworkCompatibility w.checkCalls).1
    · cases hc : (env.checkNetworkCompatibility w.checkCalls).2.isOk
      · left
        refine ⟨_, _, bringUpBody_conflict env bound w hs hr hc, ?_⟩
        intro e he
        simp at he
        rcases he with rfl | rfl | rfl | rfl | rfl <;> rfl
      · right
        exact ⟨_, _, _, _, bringUpBody_compatible env bound w hs hr hc, hs, hr, hc⟩
    · left
      refine ⟨_, _, bringUpBody_check_failed env bound w hs (by omega), ?_⟩
      intro e he
      simp at he
      rcases he with rfl | rfl | rfl | rfl | rfl <;> rfl
  · left
    refine ⟨_, _, bringUpBody_start_failed env bound w (by omega), ?_⟩
    intro e he
    simp at he
    rcases he with rfl | rfl | rfl <;> rfl

/-- The bring-up loop performs bring-up actions only. -/
theorem bringUp_events (env : Env) (bound : Nat) :
    ∀ (n : Nat) (w : World), ∀ e ∈ (whileTrueAux (bringUpBody env) bound n w).trace,
      e.isBringUp = true := by
  intro n
  induction n with
  | zero => intro w e he; simp [whileTrueAux] at he
  | succ n ih =>
    intro w e he
    rcases bringUpBody_cases env bound w with ⟨tb, w', hb, htb⟩ | ⟨a, b, out, w', hb, _, _, _⟩
    · rw [whileTrueAux_cont _ _ n _ _ _ hb] at he
      rcases List.mem_append.mp he with h | h
      · exact htb e h
      · exact ih w' e h
    · rw [whileTrueAux_brk _ _ n _ _ _ hb] at he
      simp at he
      rcases he with rfl | rfl | rfl <;> rfl

/-- When the bring-up loop exits, its last iteration is a successful start
followed by a successful check that reads "compatible". -/
theorem bringUp_exit_tail (env : Env) (bound : Nat) :
    ∀ (n : Nat) (w w2 : World) (t : List Event),
      whileTrueAux (bringUpBody env) bound n w = ⟨t, some ((), w2)⟩ →
      ∃ pre a b out,
        t = pre ++ [Event.nodeStart a, Event.lowsyslog LogLine.checkingNetworkCompatibility,
          Event.checkNetworkCompatibility b out] ∧
        0 ≤ a ∧ 0 ≤ b ∧ out.isOk = true := by
  intro n
  induction n with
  | zero => intro w w2 t h; simp [whileTrueAux] at h
  | succ n ih =>
    intro w w2 t h
    rcases bringUpBody_cases env bound w with ⟨tb, w', hb, _⟩ | ⟨a, b, out, w', hb, ha, hb', ho⟩
    · rw [whileTrueAux_cont _ _ n _ _ _ hb] at h
      have ht : t = tb ++ (whileTrueAux (bringUpBody env) bound n w').trace := by
        have := congrArg Exec.trace h
        exact this.symm
      have hr : (whileTrueAux (bringUpBody env) bound n w').ret = some ((), w2) :=
        congrArg Exec.ret h
      obtain ⟨pre, a, b, out, hpre, ha, hb', ho⟩ :=
        ih w' w2 (whileTrueAux (bringUpBody env) bound n w').trace (by
          calc whileTrueAux (bringUpBody env) bound n w'
              = ⟨(whileTrueAux (bringUpBody env) bound n w').trace,
                  (whileTrueAux (bringUpBody env) bound n w').ret⟩ := rfl
            _ = ⟨(whileTrueAux (bringUpBody env) bound n w').trace, some ((), w2)⟩ := by
                rw [hr])
      refine ⟨tb ++ pre, a, b, out, ?_, ha, hb', ho⟩
      rw [ht, hpre, List.append_assoc]
    · rw [whileTrueAux_brk _ _ n _ _ _ hb] at h
      refine ⟨[], a, b, out, ?_, ha, hb', ho⟩
      have := congrArg Exec.trace h
      exact this.symm

theorem isBringUp_not_others (e : Event) (h : e.isBringUp = true) :
    e.isDiagnostics = false ∧ e.isTimeSyncStart = false ∧ e.isNodeSpin = false ∧
      e.isDeadLog = false := by
  cases e with
  | lowsyslog l => cases l <;> simp_all [Event.isBringUp, Event.isDiagnostics,
      Event.isTimeSyncStart, Event.isNodeSpin, Event.isDeadLog]
  | _ => simp_all [Event.isBringUp, Event.isDiagnostics,
      Event.isTimeSyncStart, Event.isNodeSpin, Event.isDeadLog]

theorem isNodeSetup_not_others (e : Event) (h : e.isNodeSetup = true) :
    e.isDiagnostics = false ∧ e.isTimeSyncStart = false ∧ e.isNodeSpin = false ∧
      e.isDeadLog = false := by
  cases e with
  | lowsyslog l => cases l <;> simp_all [Event.isNodeSetup, Event.isDiagnostics,
      Event.isTimeSyncStart, Event.isNodeSpin, Event.isDeadLog]
  | _ => simp_all [Event.isNodeSetup, Event.isDiagnostics,
      Event.isTimeSyncStart, Event.isNodeSpin, Event.isDeadLog]

theorem blinkPattern_not_others (i : Nat) :
    (blinkPattern i).isDiagnostics = false ∧ (blinkPattern i).isTimeSyncStart = false ∧
      (blinkPattern i).isNodeSpin = false ∧ (blinkPattern i).isThreadStart = false ∧
      (blinkPattern i).isHadActivity = false := by
  unfold blinkPattern
  split <;> simp [Event.isDiagnostics, Event.isTimeSyncStart, Event.isNodeSpin,
    Event.isThreadStart, Event.isHadActivity]

theorem spinActions_not_others (env : Env) (w : World) (k : Nat) :
    ∀ e ∈ spinActions env w k, e.isTimeSyncStart = false ∧ e.isDeadLog = false := by
  intro e he
  unfold spinActions at he
  split at he <;> simp at he <;> rcases he with rfl | rfl | rfl | rfl | rfl | rfl <;>
    simp [Event.isTimeSyncStart, Event.isDeadLog]

/-- The node thread while the bring-up loop has not exited. -/
theorem thread_main_in_bringUp (env : Env) (bound : Nat) (w w1 : World) (t1 t2 : List Event)
    (h1 : nodeSetup bound w = ⟨t1, some ((), w1)⟩)
    (h2 : bringUpLoop env bound w1 = ⟨t2, none⟩) :
    uavcan_node_thread.main env bound w = ⟨t1 ++ t2, none⟩ := by
  simp [uavcan_node_thread.main, bind_eq, Prog.bind, h1, h2]

/-- The node thread after bring-up, when `time_sync_slave.start()` fails. -/
theorem thread_main_halted (env : Env) (bound : Nat) (w w1 w2 : World) (t1 t2 : List Event)
    (h1 : nodeSetup bound w = ⟨t1, some ((), w1)⟩)
    (h2 : bringUpLoop env bound w1 = ⟨t2, some ((), w2)⟩)
    (hr : env.timeSyncSlaveStart < 0) :
    uavcan_node_thread.main env bound w =
      ⟨t1 ++ t2 ++ [Event.timeSyncSlaveConstruct,
          Event.timeSyncSlaveStart env.timeSyncSlaveStart] ++
        (die env.timeSyncSlaveStart bound w2).trace, none⟩ := by
  simp [uavcan_node_thread.main, bind_eq, pure_eq, Prog.bind, Prog.pure, h1, h2,
    timeSynchronizer, timeSyncSlaveStart, emit, hr, die_run]

/-- The node thread after bring-up, when `time_sync_slave.start()` succeeds. -/
theorem thread_main_running (env : Env) (bound : Nat) (w w1 w2 : World) (t1 t2 : List Event)
    (h1 : nodeSetup bound w = ⟨t1, some ((), w1)⟩)
    (h2 : bringUpLoop env bound w1 = ⟨t2, some ((), w2)⟩)
    (hr : 0 ≤ env.timeSyncSlaveStart) :
    uavcan_node_thread.main env bound w =
      ⟨t1 ++ t2 ++ [Event.timeSyncSlaveConstruct,
          Event.timeSyncSlaveStart env.timeSyncSlaveStart] ++
        (mainLoop env bound w2).trace, none⟩ := by
  have hr' : ¬ (env.timeSyncSlaveStart < 0) := by omega
  simp [uavcan_node_thread.main, bind_eq, pure_eq, Prog.bind, Prog.pure, h1, h2,
    timeSynchronizer, timeSyncSlaveStart, emit, hr', mainLoop_run]

theorem split_of_not_mem {α : Type} (e : α) :
    ∀ (A B pre post : List α), A ++ B = pre ++ e :: post → e ∉ A →
      ∃ mid, pre = A ++ mid ∧ B = mid ++ e :: post := by
  intro A
  induction A with
  | nil => intro B pre post h _; exact ⟨pre, rfl, h⟩
  | cons a A ih =>
    intro B pre post h hA
    cases pre with
    | nil =>
      simp at h
      exact absurd (by simp [h.1]) hA
    | cons p pre =>
      simp at h
      obtain ⟨rfl, h⟩ := h
      obtain ⟨mid, rfl, hB⟩ := ih B pre post h (fun hm => hA (List.mem_cons_of_mem _ hm))
      exact ⟨mid, rfl, hB⟩

theorem die_trace_not_others (status : Int) (bound : Nat) (w : World) :
    ∀ e ∈ (die status bound w).trace,
      e.isDiagnostics = false ∧ e.isTimeSyncStart = false ∧ e.isNodeSpin = false ∧
        e.isThreadStart = false ∧ e.isHadActivity = false := by
  intro e he
  rw [die_run] at he
  rcases List.mem_cons.mp he with rfl | h
  · simp [Event.isDiagnostics, Event.isTimeSyncStart, Event.isNodeSpin, Event.isThreadStart,
      Event.isHadActivity]
  · obtain ⟨i, _, rfl⟩ := List.mem_map.mp h
    exact blinkPattern_not_others i

theorem mainLoop_trace_not_others (env : Env) (bound : Nat) (w : World) :
    ∀ e ∈ (mainLoop env bound w).trace, e.isTimeSyncStart = false ∧ e.isDeadLog = false := by
  intro e he
  rw [mainLoop_run] at he
  rcases List.mem_append.mp he with h | h
  · simp at h
    rcases h with rfl | rfl | rfl <;> simp [Event.isTimeSyncStart, Event.isDeadLog]
  · obtain ⟨k, _, hk⟩ := List.mem_flatMap.mp h
    exact spinActions_not_others env w k e hk

/-- The shape of every trace of the node thread: either it is still in set-up
and bring-up, or bring-up ended with a successful iteration and was followed
by the construction and the single start of the time synchronizer. -/
theorem thread_main_shape (env : Env) (bound : Nat) (w : World) :
    (∀ e ∈ (uavcan_node_thread.main env bound w).trace,
        e.isTimeSyncStart = false ∧ e.isNodeSpin = false) ∨
    (∃ t0 a b out R,
      (uavcan_node_thread.main env bound w).trace =
        (t0 ++ [Event.nodeStart a, Event.lowsyslog LogLine.checkingNetworkCompatibility,
          Event.checkNetworkCompatibility b out, Event.timeSyncSlaveConstruct]) ++
          Event.timeSyncSlaveStart env.timeSyncSlaveStart :: R ∧
      0 ≤ a ∧ 0 ≤ b ∧ out.isOk = true ∧
      (∀ e ∈ t0, e.isTimeSyncStart = false ∧ e.isNodeSpin = false) ∧
      (∀ e ∈ R, e.isTimeSyncStart = false) ∧
      (env.timeSyncSlaveStart < 0 → ∀ e ∈ R, e.isNodeSpin = false)) := by
  obtain ⟨t1, w1, h1, hs1⟩ := nodeSetup_returns bound w
  have hb2 : ∀ e ∈ (bringUpLoop env bound w1).trace, e.isBringUp = true :=
    bringUp_events env bound bound w1
  cases hloop : bringUpLoop env bound w1 with
  | mk t2 r2 =>
    rw [hloop] at hb2
    simp only at hb2
    have hpre : ∀ e ∈ t1 ++ t2, e.isTimeSyncStart = false ∧ e.isNodeSpin = false := by
      intro e he
      rcases List.mem_append.mp he with h | h
      · have := isNodeSetup_not_others e (hs1 e h)
        exact ⟨this.2.1, this.2.2.1⟩
      · have := isBringUp_not_others e (hb2 e h)
        exact ⟨this.2.1, this.2.2.1⟩
    cases r2 with
    | none =>
      left
      rw [thread_main_in_bringUp env bound w w1 t1 t2 h1 hloop]
      exact hpre
    | some p =>
      obtain ⟨u, w2⟩ := p
      right
      obtain ⟨pre, a, b, out, hpre2, ha, hb, ho⟩ := bringUp_exit_tail env bound bound w1 w2 t2 hloop
      have hpre0 : ∀ e ∈ t1 ++ pre, e.isTimeSyncStart = false ∧ e.isNodeSpin = false := by
        intro e he
        apply hpre
        rw [hpre2]
        rcases List.mem_append.mp he with h | h
        · exact List.mem_append_left _ h
        · exact List.mem_append_right _ (List.mem_append_left _ h)
      by_cases hr : env.timeSyncSlaveStart < 0
      · refine ⟨t1 ++ pre, a, b, out, (die env.timeSyncSlaveStart bound w2).trace,
          ?_, ha, hb, ho, hpre0, ?_, ?_⟩
        · rw [thread_main_halted env bound w w1 w2 t1 t2 h1 hloop hr, hpre2]
          simp
        · intro e he
          exact (die_trace_not_others _ _ _ e he).2.1
        · intro _ e he
          exact (die_trace_not_others _ _ _ e he).2.2.1
      · refine ⟨t1 ++ pre, a, b, out, (mainLoop env bound w2).trace,
          ?_, ha, hb, ho, hpre0, ?_, ?_⟩
        · rw [thread_main_running env bound w w1 w2 t1 t2 h1 hloop (by omega), hpre2]
          simp
        · intro e he
          exact (mainLoop_trace_not_others _ _ _ e he).1
        · intro h; exact absurd h hr

/-! ### `getNode` -/

theorem callTimes_getNode_constructed (bound : Nat) :
    ∀ (k : Nat) (w : World) (n : Node), w.node_ = some n →
      callTimes getNode k bound w = ⟨[], some (List.replicate k n, w)⟩ := by
  intro k
  induction k with
  | zero => intro w n _; rfl
  | succ k ih =>
    intro w n h
    simp [callTimes, Prog.bind, Prog.pure, getNode_constructed bound w n h, ih w n h,
      List.replicate_succ]

/-! ### `::main()` -/

theorem init_run (env : Env) (bound : Nat) (w : World) :
    init env bound w =
      ⟨[Event.halInit, Event.systemInit, Event.sdStart, Event.canInit 1000000 env.canInit],
        some (env.canInit, w)⟩ := by
  by_cases h : env.canInit < 0 <;>
    simp [init, bind_eq, pure_eq, Prog.bind, Prog.pure, emit, canInit, h]

theorem indicatorStep_run (env : Env) (bound : Nat) (w : World) :
    indicatorStep env bound w =
      ⟨sampleActions env w.hadActivityCalls,
        some ((), { w with hadActivityCalls := w.hadActivityCalls + 1 })⟩ := by
  simp [indicatorStep, sampleActions, bind_eq, Prog.bind, hadActivity, ledSet, palWritePadLed,
    usleep, emit]

theorem indicator_for_run (env : Env) (bound : Nat) :
    ∀ (n i : Nat) (w : World),
      forCount (fun _ => indicatorStep env) n i bound w =
        ⟨(List.range n).flatMap (fun j => sampleActions env (w.hadActivityCalls + j)),
          some ((), { w with hadActivityCalls := w.hadActivityCalls + n })⟩ := by
  intro n
  induction n with
  | zero => intro i w; rfl
  | succ n ih =>
    intro i w
    have e : ∀ j, w.hadActivityCalls + 1 + j = w.hadActivityCalls + (j + 1) := by
      intro j; omega
    have e' : w.hadActivityCalls + 1 + n = w.hadActivityCalls + (n + 1) := by omega
    simp only [forCount, Prog.bind, indicatorStep_run, ih, flatMap_range_succ_front, e, e',
      Nat.add_zero]

theorem indicatorBody_run (env : Env) (bound : Nat) (w : World) :
    indicatorBody env bound w = ⟨cycleActions env w 0, some (LoopCtl.cont, w.afterCycle)⟩ := by
  simp [indicatorBody, cycleActions, World.afterCycle, forRange, bind_eq, pure_eq, Prog.bind,
    Prog.pure, indicator_for_run, getUtcMSec, getPrevUtcAdjustmentUSec,
    getUtcSpeedCorrectionPPM, getUtcAjdustmentJumpCount, lowsyslog, emit]

theorem cycleActions_afterCycle (env : Env) (w : World) (m : Nat) :
    cycleActions env w.afterCycle m = cycleActions env w (m + 1) := by
  have e : ∀ a : Nat, a + 1 + m = a + (m + 1) := by intro a; omega
  have e2 : ∀ i : Nat, w.hadActivityCalls + 200 + 200 * m + i =
      w.hadActivityCalls + 200 * (m + 1) + i := by intro i; omega
  simp only [cycleActions, World.afterCycle, e, e2]

theorem indicator_loop_run (env : Env) (bound : Nat) :
    ∀ (n : Nat) (w : World),
      whileTrueAux (indicatorBody env) bound n w =
        ⟨(List.range n).flatMap (cycleActions env w), none⟩ := by
  intro n
  induction n with
  | zero => intro w; rfl
  | succ n ih =>
    intro w
    have e : cycleActions env w.afterCycle = fun m => cycleActions env w (m + 1) :=
      funext (cycleActions_afterCycle env w)
    rw [whileTrueAux_cont _ _ n _ _ _ (indicatorBody_run env bound w), ih,
      flatMap_range_succ_front, e]

theorem indicatorLoop_run (env : Env) (bound : Nat) (w : World) :
    indicatorLoop env bound w = ⟨(List.range bound).flatMap (cycleActions env w), none⟩ := by
  simp [indicatorLoop, whileTrue, indicator_loop_run]

theorem main_halted (env : Env) (bound : Nat) (w : World) (h : env.canInit ≠ 0) :
    main env bound w =
      ⟨[Event.halInit, Event.systemInit, Event.sdStart, Event.canInit 1000000 env.canInit] ++
        (die env.canInit bound w).trace, none⟩ := by
  simp [main, bind_eq, pure_eq, Prog.bind, Prog.pure, init_run, h, die_run]

theorem main_running (env : Env) (bound : Nat) (w : World) (h : env.canInit = 0) :
    main env bound w =
      ⟨[Event.halInit, Event.systemInit, Event.sdStart, Event.canInit 1000000 env.canInit,
        Event.lowsyslog LogLine.startingTheUavcanThread, Event.threadStart Priority.LOWPRIO] ++
        (indicatorLoop env bound w).trace, none⟩ := by
  simp [main, bind_eq, pure_eq, Prog.bind, Prog.pure, init_run, h, indicatorLoop_run,
    lowsyslog, emit]

theorem sampleActions_not_others (env : Env) (j : Nat) :
    ∀ e ∈ sampleActions env j, e.isThreadStart = false ∧ e.isDeadLog = false ∧
      e.isUtcClockLog = false := by
  intro e he
  simp [sampleActions] at he
  rcases he with rfl | rfl | rfl <;> exact ⟨rfl, rfl, rfl⟩

theorem cycleActions_not_others (env : Env) (w : World) (m : Nat) :
    ∀ e ∈ cycleActions env w m, e.isThreadStart = false ∧ e.isDeadLog = false := by
  intro e he
  unfold cycleActions at he
  rcases List.mem_append.mp he with h | h
  · obtain ⟨i, _, hi⟩ := List.mem_flatMap.mp h
    have := sampleActions_not_others env _ e hi
    exact ⟨this.1, this.2.1⟩
  · simp at h
    subst h
    exact ⟨rfl, rfl⟩

theorem indicatorLoop_trace_not_others (env : Env) (bound : Nat) (w : World) :
    ∀ e ∈ (indicatorLoop env bound w).trace, e.isThreadStart = false ∧ e.isDeadLog = false := by
  intro e he
  rw [indicatorLoop_run] at he
  obtain ⟨m, _, hm⟩ := List.mem_flatMap.mp he
  exact cycleActions_not_others env w m e hm

theorem filterMap_flatMap_range {α β : Type} (g : α → Option β) (f : Nat → List α)
    (v : Nat → List β) (h : ∀ k, (f k).filterMap g = v k) (n : Nat) :
    ((List.range n).flatMap f).filterMap g = (List.range n).flatMap v := by
  induction n with
  | zero => simp
  | succ m ih =>
    rw [flatMap_range_succ_back, flatMap_range_succ_back, List.filterMap_append, ih, h]

theorem flatMap_range_singleton {β : Type} (v : Nat → β) (n : Nat) :
    (List.range n).flatMap (fun k => [v k]) = (List.range n).map v := by
  induction n with
  | zero => simp
  | succ m ih => rw [flatMap_range_succ_back, ih, List.range_succ, List.map_append]; rfl

theorem flatMap_range_blocks {β : Type} (v : Nat → β) (a b : Nat) (n : Nat) :
    (List.range n).flatMap (fun m => (List.range b).map (fun i => v (a + b * m + i))) =
      (List.range (b * n)).map (fun k => v (a + k)) := by
  induction n with
  | zero => simp
  | succ m ih =>
    rw [flatMap_range_succ_back, ih, Nat.mul_succ, List.range_add, List.map_append,
      List.map_map]
    congr 1
    apply List.map_congr_left
    intro i _
    simp [Nat.add_assoc]

theorem cycleActions_sampled (env : Env) (w : World) (m : Nat) :
    (cycleActions env w m).filterMap Event.sampled =
      (List.range 200).map (fun i => env.hadActivity (w.hadActivityCalls + 200 * m + i)) := by
  unfold cycleActions
  rw [List.filterMap_append,
    filterMap_flatMap_range Event.sampled _
      (fun i => [env.hadActivity (w.hadActivityCalls + 200 * m + i)]) (by intro k; rfl),
    flatMap_range_singleton]
  simp [Event.sampled]

theorem cycleActions_ledWritten (env : Env) (w : World) (m : Nat) :
    (cycleActions env w m).filterMap Event.ledWritten =
      (List.range 200).map (fun i => env.hadActivity (w.hadActivityCalls + 200 * m + i)) := by
  unfold cycleActions
  rw [List.filterMap_append,
    filterMap_flatMap_range Event.ledWritten _
      (fun i => [env.hadActivity (w.hadActivityCalls + 200 * m + i)]) (by intro k; rfl),
    flatMap_range_singleton]
  simp [Event.ledWritten]

theorem cycleActions_counts (env : Env) (w : World) (m : Nat) :
    (cycleActions env w m).countP Event.isHadActivity = 200 ∧
    (cycleActions env w m).countP Event.isUtcClockLog = 1 := by
  unfold cycleActions
  constructor
  · rw [List.countP_append, countP_flatMap_range Event.isHadActivity _ 1 (by intro k; rfl)]
    simp [List.countP_cons, Event.isHadActivity]
  · rw [List.countP_append, countP_flatMap_range Event.isUtcClockLog _ 0 (by intro k; rfl)]
    simp [List.countP_cons, Event.isUtcClockLog]

/-! ## Claims -/

/-- C8: for every status code `s`, `die(s)` logs `s` once, as its first action,
and never returns: under every iteration bound control has not come back, and
what follows the log line is the first `4 * bound` actions of the endless
repetition of (LED off, sleep 1 s, LED on, sleep 1 s).  So the first LED write
is "off", LED writes alternate, one 1-second sleep separates consecutive
writes, and no other action occurs. -/
theorem die_logs_once_then_blinks_forever (status : Int) (bound : Nat) (w : World) :
    (die status bound w).ret = none ∧
    (die status bound w).trace =
      Event.lowsyslog (LogLine.nowIAmDead status) :: (List.range (4 * bound)).map blinkPattern ∧
    (∀ i : Nat,
      blinkPattern (4 * i) = Event.palWritePadLed false ∧
      blinkPattern (4 * i + 1) = Event.sleep 1 ∧
      blinkPattern (4 * i + 2) = Event.palWritePadLed true ∧
      blinkPattern (4 * i + 3) = Event.sleep 1) ∧
    (die status bound w).trace.filter Event.isDeadLog =
      [Event.lowsyslog (LogLine.nowIAmDead status)] := by
  rw [die_run]
  refine ⟨rfl, rfl, ?_, ?_⟩
  · intro i
    simp [blinkPattern, Nat.add_mod]
  · simp only [List.filter_cons, Event.isDeadLog, if_true]
    congr 1
    rw [List.filter_eq_nil_iff]
    intro e he
    rw [List.mem_map] at he
    obtain ⟨i, _, rfl⟩ := he
    unfold blinkPattern
    split <;> simp [Event.isDeadLog]

/-- C1: in the bring-up loop, for every `n`: if `start()` returns a negative
result on the first `n` attempts and a non-negative one on attempt `n + 1`, and
the compatibility check (run for the first time on attempt `n + 1`) returns a
non-negative result with `isOk()` true, then under every iteration bound of at
least `n + 1` the loop exits; its trace is `n` times (start, failure line,
sleep 3 s) followed by (start, "Checking" line, check): `n + 1` calls of
`start`, 1 call of `checkNetworkCompatibility`, `n` sleeps of 3 s each, `3 * n`
seconds of backoff in total and none after the successful attempt. -/
theorem bringUp_exits_after_failed_starts (env : Env) (w : World) (n bound : Nat)
    (hfail : ∀ k, k < n → env.nodeStart (w.nodeStartCalls + k) < 0)
    (hstart : 0 ≤ env.nodeStart (w.nodeStartCalls + n))
    (hcheck : 0 ≤ (env.checkNetworkCompatibility w.checkCalls).1)
    (hok : (env.checkNetworkCompatibility w.checkCalls).2.isOk = true)
    (hbound : n + 1 ≤ bound) :
    (bringUpLoop env bound w).ret =
      some ((), { w with nodeStartCalls := w.nodeStartCalls + (n + 1),
                         checkCalls := w.checkCalls + 1 }) ∧
    (bringUpLoop env bound w).trace =
      (List.range n).flatMap (fun k =>
        [Event.nodeStart (env.nodeStart (w.nodeStartCalls + k)),
         Event.lowsyslog (LogLine.nodeInitializationFailure
           (env.nodeStart (w.nodeStartCalls + k))),
         Event.sleep 3]) ++
      [Event.nodeStart (env.nodeStart (w.nodeStartCalls + n)),
       Event.lowsyslog LogLine.checkingNetworkCompatibility,
       Event.checkNetworkCompatibility (env.checkNetworkCompatibility w.checkCalls).1
         (env.checkNetworkCompatibility w.checkCalls).2] ∧
    (bringUpLoop env bound w).trace.countP Event.isNodeStart = n + 1 ∧
    (bringUpLoop env bound w).trace.countP Event.isCheck = 1 ∧
    (bringUpLoop env bound w).trace.filter Event.isSleep = List.replicate n (Event.sleep 3) ∧
    sleepSeconds (bringUpLoop env bound w).trace = 3 * n := by
  obtain ⟨m, rfl⟩ : ∃ m, bound = n + (m + 1) := ⟨bound - (n + 1), by omega⟩
  have hlast := bringUpBody_compatible env (n + (m + 1))
    { w with nodeStartCalls := w.nodeStartCalls + n } hstart hcheck hok
  have hrun : bringUpLoop env (n + (m + 1)) w =
      ⟨(List.range n).flatMap (fun k =>
        [Event.nodeStart (env.nodeStart (w.nodeStartCalls + k)),
         Event.lowsyslog (LogLine.nodeInitializationFailure
           (env.nodeStart (w.nodeStartCalls + k))),
         Event.sleep 3]) ++
      [Event.nodeStart (env.nodeStart (w.nodeStartCalls + n)),
       Event.lowsyslog LogLine.checkingNetworkCompatibility,
       Event.checkNetworkCompatibility (env.checkNetworkCompatibility w.checkCalls).1
         (env.checkNetworkCompatibility w.checkCalls).2],
       some ((), { w with nodeStartCalls := w.nodeStartCalls + (n + 1),
                          checkCalls := w.checkCalls + 1 })⟩ := by
    unfold bringUpLoop whileTrue
    rw [bringUp_failed_starts env (n + (m + 1)) n (m + 1) w hfail,
      whileTrueAux_brk _ _ m _ _ _ hlast]
    simp [Nat.add_assoc]
  rw [hrun]
  refine ⟨rfl, rfl, ?_, ?_, ?_, ?_⟩
  · rw [List.countP_append, countP_flatMap_range Event.isNodeStart _ 1 (by intro k; rfl)]
    simp [List.countP_cons, Event.isNodeStart]
  · rw [List.countP_append, countP_flatMap_range Event.isCheck _ 0 (by intro k; rfl)]
    simp [List.countP_cons, Event.isCheck]
  · rw [List.filter_append,
      filter_flatMap_range_single Event.isSleep _ (Event.sleep 3) (by intro k; rfl)]
    simp [List.filter_cons, Event.isSleep]
  · rw [sleepSeconds_append, sleepSeconds_flatMap_range _ 3 (by intro k; rfl)]
    simp [sleepSeconds, Nat.mul_comm]

/-- Witness of C1 for `n = 2`: two failed starts, then success: 3 start
attempts, 1 compatibility check, 6 s of backoff. -/
theorem bringUp_exits_after_failed_starts_witness :
    (∀ k, k < 2 → Env.twoFailedStarts.nodeStart (World.boot.nodeStartCalls + k) < 0) ∧
    (bringUpLoop Env.twoFailedStarts 3 World.boot).ret.isSome = true ∧
    (bringUpLoop Env.twoFailedStarts 3 World.boot).trace.countP Event.isNodeStart = 3 ∧
    (bringUpLoop Env.twoFailedStarts 3 World.boot).trace.countP Event.isCheck = 1 ∧
    sleepSeconds (bringUpLoop Env.twoFailedStarts 3 World.boot).trace = 6 := by
  have h := bringUp_exits_after_failed_starts Env.twoFailedStarts World.boot 2 3
    (by decide) (by decide) (by decide) (by decide) (by decide)
  refine ⟨by decide, ?_, h.2.2.1, h.2.2.2.1, h.2.2.2.2.2⟩
  rw [h.1]
  rfl

/-- C2: in the bring-up loop, for every node ID `c`: if every `start()` call
succeeds, the first compatibility check succeeds but reports a conflict with
node `c` (`isOk()` false), and the second check succeeds with `isOk()` true,
then under every iteration bound of at least 2 the loop exits on the second
attempt.  Its trace holds exactly one "Network conflict" line, which carries
`c`, no "Node initialization failure" line, exactly one sleep, of 3 s, and no
action other than start, check, the two log lines and that sleep. -/
theorem bringUp_conflict_then_compatible (env : Env) (w : World) (c bound : Nat)
    (hstart : ∀ k, 0 ≤ env.nodeStart k)
    (hcheck0 : 0 ≤ (env.checkNetworkCompatibility w.checkCalls).1)
    (hconf : (env.checkNetworkCompatibility w.checkCalls).2.isOk = false)
    (hnode : (env.checkNetworkCompatibility w.checkCalls).2.conflicting_node = c)
    (hcheck1 : 0 ≤ (env.checkNetworkCompatibility (w.checkCalls + 1)).1)
    (hok : (env.checkNetworkCompatibility (w.checkCalls + 1)).2.isOk = true)
    (hbound : 2 ≤ bound) :
    (bringUpLoop env bound w).ret =
      some ((), { w with nodeStartCalls := w.nodeStartCalls + 2,
                         checkCalls := w.checkCalls + 2 }) ∧
    (bringUpLoop env bound w).trace =
      [Event.nodeStart (env.nodeStart w.nodeStartCalls),
       Event.lowsyslog LogLine.checkingNetworkCompatibility,
       Event.checkNetworkCompatibility (env.checkNetworkCompatibility w.checkCalls).1
         (env.checkNetworkCompatibility w.checkCalls).2,
       Event.lowsyslog (LogLine.networkConflict c),
       Event.sleep 3,
       Event.nodeStart (env.nodeStart (w.nodeStartCalls + 1)),
       Event.lowsyslog LogLine.checkingNetworkCompatibility,
       Event.checkNetworkCompatibility (env.checkNetworkCompatibility (w.checkCalls + 1)).1
         (env.checkNetworkCompatibility (w.checkCalls + 1)).2] ∧
    (bringUpLoop env bound w).trace.filter Event.isConflictLog =
      [Event.lowsyslog (LogLine.networkConflict c)] ∧
    (bringUpLoop env bound w).trace.filter Event.isFailureLog = [] ∧
    (bringUpLoop env bound w).trace.filter Event.isSleep = [Event.sleep 3] := by
  obtain ⟨m, rfl⟩ : ∃ m, bound = m + 1 + 1 := ⟨bound - 2, by omega⟩
  have h1 := bringUpBody_conflict env (m + 1 + 1) w (hstart _) hcheck0 hconf
  have h2 := bringUpBody_compatible env (m + 1 + 1)
    { w with nodeStartCalls := w.nodeStartCalls + 1, checkCalls := w.checkCalls + 1 }
    (hstart _) hcheck1 hok
  have hrun : bringUpLoop env (m + 1 + 1) w =
      ⟨[Event.nodeStart (env.nodeStart w.nodeStartCalls),
       Event.lowsyslog LogLine.checkingNetworkCompatibility,
       Event.checkNetworkCompatibility (env.checkNetworkCompatibility w.checkCalls).1
         (env.checkNetworkCompatibility w.checkCalls).2,
       Event.lowsyslog (LogLine.networkConflict c),
       Event.sleep 3,
       Event.nodeStart (env.nodeStart (w.nodeStartCalls + 1)),
       Event.lowsyslog LogLine.checkingNetworkCompatibility,
       Event.checkNetworkCompatibility (env.checkNetworkCompatibility (w.checkCalls + 1)).1
         (env.checkNetworkCompatibility (w.checkCalls + 1)).2],
       some ((), { w with nodeStartCalls := w.nodeStartCalls + 2,
                          checkCalls := w.checkCalls + 2 })⟩ := by
    unfold bringUpLoop whileTrue
    rw [whileTrueAux_cont _ _ (m + 1) _ _ _ h1, whileTrueAux_brk _ _ m _ _ _ h2, hnode]
    simp
  rw [hrun]
  refine ⟨rfl, rfl, ?_, ?_, ?_⟩ <;>
    simp [List.filter_cons, Event.isConflictLog, Event.isFailureLog, Event.isSleep]

/-- Witness of C2 for `c = 42`. -/
theorem bringUp_conflict_then_compatible_witness :
    (∀ k, 0 ≤ Env.conflictWith42.nodeStart k) ∧
    (Env.conflictWith42.checkNetworkCompatibility World.boot.checkCalls).2.conflicting_node = 42 ∧
    (bringUpLoop Env.conflictWith42 2 World.boot).ret.isSome = true ∧
    (bringUpLoop Env.conflictWith42 2 World.boot).trace.filter Event.isConflictLog =
      [Event.lowsyslog (LogLine.networkConflict 42)] ∧
    (bringUpLoop Env.conflictWith42 2 World.boot).trace.filter Event.isFailureLog = [] ∧
    (bringUpLoop Env.conflictWith42 2 World.boot).trace.filter Event.isSleep = [Event.sleep 3] := by
  have h := bringUp_conflict_then_compatible Env.conflictWith42 World.boot 42 2
    (fun _ => le_refl _) (by decide) (by decide) (by decide) (by decide) (by decide) (by decide)
  refine ⟨fun _ => le_refl _, by decide, ?_, h.2.2.1, h.2.2.2.1, h.2.2.2.2⟩
  rw [h.1]
  rfl

/-- C10: an iteration of the bring-up loop always comes back, and it exits the
loop if and only if `start()` returned a non-negative result, the check
returned a non-negative result and its outcome has `isOk()` true.  An
iteration that does not exit emits exactly one of the two lines "Node
initialization failure" / "Network conflict", and ends with that line followed
by its only sleep, of 3 s.  When `start()` succeeds and the check returns a
negative `r`, whatever outcome it leaves, the iteration is (start, "Checking"
line, check, failure line with `r`, sleep 3 s) without a conflict line, and the
loop goes on with a new call of `start()`. -/
theorem bringUpBody_exits_iff_compatible (env : Env) (bound : Nat) (w : World) :
    (∃ ctl w', (bringUpBody env bound w).ret = some (ctl, w') ∧
      (ctl = LoopCtl.brk ↔
        (0 ≤ env.nodeStart w.nodeStartCalls ∧
         0 ≤ (env.checkNetworkCompatibility w.checkCalls).1 ∧
         (env.checkNetworkCompatibility w.checkCalls).2.isOk = true)) ∧
      (ctl = LoopCtl.cont →
        ((bringUpBody env bound w).trace.countP
            (fun e => e.isFailureLog || e.isConflictLog) = 1 ∧
         (bringUpBody env bound w).trace.filter Event.isSleep = [Event.sleep 3] ∧
         ∃ pre line, (bringUpBody env bound w).trace =
             pre ++ [Event.lowsyslog line, Event.sleep 3] ∧
           ((Event.lowsyslog line).isFailureLog || (Event.lowsyslog line).isConflictLog)
             = true))) ∧
    (0 ≤ env.nodeStart w.nodeStartCalls →
      (env.checkNetworkCompatibility w.checkCalls).1 < 0 →
      (bringUpBody env bound w =
        ⟨[Event.nodeStart (env.nodeStart w.nodeStartCalls),
          Event.lowsyslog LogLine.checkingNetworkCompatibility,
          Event.checkNetworkCompatibility (env.checkNetworkCompatibility w.checkCalls).1
            (env.checkNetworkCompatibility w.checkCalls).2,
          Event.lowsyslog (LogLine.nodeInitializationFailure
            (env.checkNetworkCompatibility w.checkCalls).1),
          Event.sleep 3],
          some (LoopCtl.cont,
            { w with nodeStartCalls := w.nodeStartCalls + 1,
                     checkCalls := w.checkCalls + 1 })⟩ ∧
       (bringUpBody env bound w).trace.filter Event.isConflictLog = [] ∧
       ∀ n, ∃ rest, (whileTrueAux (bringUpBody env) bound (n + 2) w).trace =
          (bringUpBody env bound w).trace ++
            Event.nodeStart (env.nodeStart (w.nodeStartCalls + 1)) :: rest)) := by
  have hfirst : ∀ (n : Nat) (v : World), ∃ rest,
      (whileTrueAux (bringUpBody env) bound (n + 1) v).trace =
        Event.nodeStart (env.nodeStart v.nodeStartCalls) :: rest := by
    intro n v
    by_cases hs : 0 ≤ env.nodeStart v.nodeStartCalls
    · by_cases hr : 0 ≤ (env.checkNetworkCompatibility v.checkCalls).1
      · cases hc : (env.checkNetworkCompatibility v.checkCalls).2.isOk
        · rw [whileTrueAux_cont _ _ n _ _ _ (bringUpBody_conflict env bound v hs hr hc)]
          exact ⟨_, rfl⟩
        · rw [whileTrueAux_brk _ _ n _ _ _ (bringUpBody_compatible env bound v hs hr hc)]
          exact ⟨_, rfl⟩
      · rw [whileTrueAux_cont _ _ n _ _ _ (bringUpBody_check_failed env bound v hs (by omega))]
        exact ⟨_, rfl⟩
    · rw [whileTrueAux_cont _ _ n _ _ _ (bringUpBody_start_failed env bound v (by omega))]
      exact ⟨_, rfl⟩
  constructor
  · by_cases hs : 0 ≤ env.nodeStart w.nodeStartCalls
    · by_cases hr : 0 ≤ (env.checkNetworkCompatibility w.checkCalls).1
      · cases hc : (env.checkNetworkCompatibility w.checkCalls).2.isOk
        · rw [bringUpBody_conflict env bound w hs hr hc]
          refine ⟨_, _, rfl, ?_, ?_⟩
          · simp
          · intro _
            refine ⟨?_, ?_, ⟨[Event.nodeStart (env.nodeStart w.nodeStartCalls),
                Event.lowsyslog LogLine.checkingNetworkCompatibility,
                Event.checkNetworkCompatibility (env.checkNetworkCompatibility w.checkCalls).1
                  (env.checkNetworkCompatibility w.checkCalls).2],
              LogLine.networkConflict
                (env.checkNetworkCompatibility w.checkCalls).2.conflicting_node, rfl, rfl⟩⟩ <;>
              simp [List.countP_cons, List.filter_cons, Event.isFailureLog,
                Event.isConflictLog, Event.isSleep]
        · rw [bringUpBody_compatible env bound w hs hr hc]
          refine ⟨_, _, rfl, ?_, ?_⟩
          · simp [hs, hr]
          · intro h; cases h
      · have hr' : (env.checkNetworkCompatibility w.checkCalls).1 < 0 := by omega
        rw [bringUpBody_check_failed env bound w hs hr']
        refine ⟨_, _, rfl, ?_, ?_⟩
        · simp [hr]
        · intro _
          refine ⟨?_, ?_, ⟨[Event.nodeStart (env.nodeStart w.nodeStartCalls),
              Event.lowsyslog LogLine.checkingNetworkCompatibility,
              Event.checkNetworkCompatibility (env.checkNetworkCompatibility w.checkCalls).1
                (env.checkNetworkCompatibility w.checkCalls).2],
            LogLine.nodeInitializationFailure
              (env.checkNetworkCompatibility w.checkCalls).1, rfl, rfl⟩⟩ <;>
            simp [List.countP_cons, List.filter_cons, Event.isFailureLog,
              Event.isConflictLog, Event.isSleep]
    · have hs' : env.nodeStart w.nodeStartCalls < 0 := by omega
      rw [bringUpBody_start_failed env bound w hs']
      refine ⟨_, _, rfl, ?_, ?_⟩
      · simp [hs]
      · intro _
        refine ⟨?_, ?_, ⟨[Event.nodeStart (env.nodeStart w.nodeStartCalls)],
            LogLine.nodeInitializationFailure (env.nodeStart w.nodeStartCalls), rfl, rfl⟩⟩ <;>
          simp [List.countP_cons, List.filter_cons, Event.isFailureLog,
            Event.isConflictLog, Event.isSleep]
  · intro hs hr
    have hb := bringUpBody_check_failed env bound w hs hr
    refine ⟨hb, ?_, ?_⟩
    · rw [hb]
      simp [List.filter_cons, Event.isConflictLog]
    · intro n
      obtain ⟨rest, hrest⟩ := hfirst n
        { w with nodeStartCalls := w.nodeStartCalls + 1, checkCalls := w.checkCalls + 1 }
      refine ⟨rest, ?_⟩
      rw [whileTrueAux_cont _ _ (n + 1) _ _ _ hb, hb]
      simp only
      rw [hrest]

/-- Witness of C10: `start()` succeeds and the check returns -3 with an outcome
that reads "compatible": the iteration is handled as an initialization
failure and does not exit. -/
theorem bringUpBody_exits_iff_compatible_witness :
    0 ≤ Env.checkFails.nodeStart World.boot.nodeStartCalls ∧
    (Env.checkFails.checkNetworkCompatibility World.boot.checkCalls).1 < 0 ∧
    (Env.checkFails.checkNetworkCompatibility World.boot.checkCalls).2.isOk = true ∧
    (bringUpBody Env.checkFails 1 World.boot).trace =
      [Event.nodeStart 0,
       Event.lowsyslog LogLine.checkingNetworkCompatibility,
       Event.checkNetworkCompatibility (-3) ⟨true, 0⟩,
       Event.lowsyslog (LogLine.nodeInitializationFailure (-3)),
       Event.sleep 3] ∧
    (bringUpBody Env.checkFails 1 World.boot).trace.filter Event.isConflictLog = [] := by
  have h := (bringUpBody_exits_iff_compatible Env.checkFails 1 World.boot).2
    (by decide) (by decide)
  refine ⟨by decide, by decide, by decide, ?_, h.2.1⟩
  rw [h.1]
  rfl

/-- C4: the diagnostics spin loop, for every sequence of `node.spin` results:
under every iteration bound the loop has not ended, and after the three entry
actions its trace is, iteration by iteration, one `node.spin` call with a
5000 ms timeout, the "Spin failure" line if and only if that result is
negative, then the time-sync-master line, the memory-usage line, the
CAN-errors line (interfaces 0 and 1) and the `logInfo` line (UTC seconds,
speed correction, jump count), once each and in this order.  There is one
`spin` call per iteration and `die` is never entered. -/
theorem mainLoop_reports_every_iteration (env : Env) (bound : Nat) (w : World) :
    (mainLoop env bound w).ret = none ∧
    (mainLoop env bound w).trace =
      [Event.lowsyslog LogLine.uavcanNodeStarted, Event.setStatusOk,
        Event.loggerSetLevel LogLevel.INFO] ++
      (List.range bound).flatMap (fun k =>
        [Event.nodeSpin 5000 (env.nodeSpin (w.nodeSpinCalls + k))] ++
        (if env.nodeSpin (w.nodeSpinCalls + k) < 0 then
          [Event.lowsyslog (LogLine.spinFailure (env.nodeSpin (w.nodeSpinCalls + k)))]
        else []) ++
        [Event.lowsyslog (LogLine.timeSyncMaster (env.getMasterNodeID (w.masterReads + k))),
         Event.lowsyslog (LogLine.memoryUsage (env.getNumUsedBlocks (w.usedBlocksReads + k))
           (env.getNumFreeBlocks (w.freeBlocksReads + k))),
         Event.lowsyslog (LogLine.canErrors
           (toUnsignedLong (env.getErrorCount 0 (w.errorCount0Reads + k)))
           (toUnsignedLong (env.getErrorCount 1 (w.errorCount1Reads + k)))),
         Event.nodeLogInfo "app" (env.getUtcMSec (w.utcReads + k) / 1000)
           (env.getUtcSpeedCorrectionPPM (w.speedCorrectionReads + k))
           (env.getUtcAjdustmentJumpCount (w.jumpCountReads + k))]) ∧
    (mainLoop env bound w).trace.countP Event.isNodeSpin = bound ∧
    (mainLoop env bound w).trace.filter Event.isDeadLog = [] := by
  refine ⟨?_, ?_, ?_, ?_⟩
  · rw [mainLoop_run]
  · rw [mainLoop_run]
    rfl
  · rw [mainLoop_run]
    simp only [List.countP_append]
    rw [countP_flatMap_range Event.isNodeSpin _ 1]
    · simp [List.countP_cons, Event.isNodeSpin]
    · intro k
      unfold spinActions
      split <;> simp [List.countP_cons, Event.isNodeSpin]
  · rw [List.filter_eq_nil_iff]
    intro e he
    simp [(mainLoop_trace_not_others env bound w e he).2]

/-- C3: after bring-up has succeeded (set-up and the bring-up loop came back
with traces `t1`, `t2`): when `time_sync_slave.start()` returns a negative
`r`, the node thread goes on with exactly `die(r)`, never comes back, and its
trace holds no action of the diagnostics loop ("UAVCAN node started",
`setStatusOk`, `setLevel`, `node.spin`, health-report lines); when it returns
a non-negative result, `die` is not entered and the thread goes on with the
main loop, whose entry actions and, under a bound of at least 1, first
`node.spin` call follow. -/
theorem timeSync_failure_is_fatal (env : Env) (bound : Nat) (w w1 w2 : World)
    (t1 t2 : List Event)
    (h1 : nodeSetup bound w = ⟨t1, some ((), w1)⟩)
    (h2 : bringUpLoop env bound w1 = ⟨t2, some ((), w2)⟩) :
    (env.timeSyncSlaveStart < 0 →
      (uavcan_node_thread.main env bound w).ret = none ∧
      (uavcan_node_thread.main env bound w).trace =
        t1 ++ t2 ++
          [Event.timeSyncSlaveConstruct, Event.timeSyncSlaveStart env.timeSyncSlaveStart] ++
          (die env.timeSyncSlaveStart bound w2).trace ∧
      (∀ e ∈ (uavcan_node_thread.main env bound w).trace, e.isDiagnostics = false)) ∧
    (0 ≤ env.timeSyncSlaveStart →
      (uavcan_node_thread.main env bound w).trace =
        t1 ++ t2 ++
          [Event.timeSyncSlaveConstruct, Event.timeSyncSlaveStart env.timeSyncSlaveStart] ++
          (mainLoop env bound w2).trace ∧
      (∀ e ∈ (uavcan_node_thread.main env bound w).trace, e.isDeadLog = false) ∧
      (∃ rest, (mainLoop env bound w2).trace =
        [Event.lowsyslog LogLine.uavcanNodeStarted, Event.setStatusOk,
          Event.loggerSetLevel LogLevel.INFO] ++ rest ∧
        (0 < bound → ∃ rest', rest =
          Event.nodeSpin 5000 (env.nodeSpin w2.nodeSpinCalls) :: rest'))) := by
  obtain ⟨t1', w1', h1', hs1⟩ := nodeSetup_returns bound w
  have hb2 : ∀ e ∈ (bringUpLoop env bound w1).trace, e.isBringUp = true :=
    bringUp_events env bound bound w1
  rw [h2] at hb2
  rw [h1] at h1'
  have ht1 : t1 = t1' := congrArg Exec.trace h1'
  subst ht1
  constructor
  · intro hr
    rw [thread_main_halted env bound w w1 w2 t1 t2 h1 h2 hr]
    refine ⟨rfl, rfl, ?_⟩
    intro e he
    simp only [List.mem_append] at he
    rcases he with ((h | h) | h) | h
    · exact (isNodeSetup_not_others e (hs1 e h)).1
    · exact (isBringUp_not_others e (hb2 e h)).1
    · simp at h
      rcases h with rfl | rfl <;> rfl
    · exact (die_trace_not_others _ _ _ e h).1
  · intro hr
    rw [thread_main_running env bound w w1 w2 t1 t2 h1 h2 hr]
    refine ⟨rfl, ?_, ?_⟩
    · intro e he
      simp only [List.mem_append] at he
      rcases he with ((h | h) | h) | h
      · exact (isNodeSetup_not_others e (hs1 e h)).2.2.2
      · exact (isBringUp_not_others e (hb2 e h)).2.2.2
      · simp at h
        rcases h with rfl | rfl <;> rfl
      · exact (mainLoop_trace_not_others _ _ _ e h).2
    · rw [mainLoop_run]
      refine ⟨_, rfl, ?_⟩
      intro hb
      obtain ⟨m, rfl⟩ : ∃ m, bound = m + 1 := ⟨bound - 1, by omega⟩
      rw [flatMap_range_succ_front]
      by_cases hneg : env.nodeSpin w2.nodeSpinCalls < 0 <;>
        simp [spinActions, hneg]

/-- Witness of C3: bring-up succeeds at once and `time_sync_slave.start()`
returns -7: the thread ends in `die(-7)` without any diagnostics action; when
it returns 0 instead, no "Now I am dead" line occurs. -/
theorem timeSync_failure_is_fatal_witness :
    Env.timeSyncFails.timeSyncSlaveStart < 0 ∧
    (uavcan_node_thread.main Env.timeSyncFails 1 World.boot).ret = none ∧
    (uavcan_node_thread.main Env.timeSyncFails 1 World.boot).trace =
      [Event.nodeConstruct 0, Event.setNodeID 64,
        Event.setName "org.uavcan.stm32_test_stm32f107"] ++
      [Event.nodeStart 0, Event.lowsyslog LogLine.checkingNetworkCompatibility,
        Event.checkNetworkCompatibility 0 ⟨true, 0⟩] ++
      [Event.timeSyncSlaveConstruct, Event.timeSyncSlaveStart (-7)] ++
      (die (-7) 1 ⟨some ⟨0⟩, 1, 1, 1, 0, 0, 0, 0, 0, 0, 0, 0, 0, 0, 0⟩).trace ∧
    (∀ e ∈ (uavcan_node_thread.main Env.timeSyncFails 1 World.boot).trace,
      e.isDiagnostics = false) ∧
    0 ≤ Env.quiet.timeSyncSlaveStart ∧
    (∀ e ∈ (uavcan_node_thread.main Env.quiet 1 World.boot).trace, e.isDeadLog = false) :=
  ⟨by decide,
    ((timeSync_failure_is_fatal Env.timeSyncFails 1 World.boot
      ⟨some ⟨0⟩, 1, 0, 0, 0, 0, 0, 0, 0, 0, 0, 0, 0, 0, 0⟩
      ⟨some ⟨0⟩, 1, 1, 1, 0, 0, 0, 0, 0, 0, 0, 0, 0, 0, 0⟩
      [Event.nodeConstruct 0, Event.setNodeID 64,
        Event.setName "org.uavcan.stm32_test_stm32f107"]
      [Event.nodeStart 0, Event.lowsyslog LogLine.checkingNetworkCompatibility,
        Event.checkNetworkCompatibility 0 ⟨true, 0⟩]
      rfl rfl).1 (by decide)).1,
    ((timeSync_failure_is_fatal Env.timeSyncFails 1 World.boot
      ⟨some ⟨0⟩, 1, 0, 0, 0, 0, 0, 0, 0, 0, 0, 0, 0, 0, 0⟩
      ⟨some ⟨0⟩, 1, 1, 1, 0, 0, 0, 0, 0, 0, 0, 0, 0, 0, 0⟩
      [Event.nodeConstruct 0, Event.setNodeID 64,
        Event.setName "org.uavcan.stm32_test_stm32f107"]
      [Event.nodeStart 0, Event.lowsyslog LogLine.checkingNetworkCompatibility,
        Event.checkNetworkCompatibility 0 ⟨true, 0⟩]
      rfl rfl).1 (by decide)).2.1,
    ((timeSync_failure_is_fatal Env.timeSyncFails 1 World.boot
      ⟨some ⟨0⟩, 1, 0, 0, 0, 0, 0, 0, 0, 0, 0, 0, 0, 0, 0⟩
      ⟨some ⟨0⟩, 1, 1, 1, 0, 0, 0, 0, 0, 0, 0, 0, 0, 0, 0⟩
      [Event.nodeConstruct 0, Event.setNodeID 64,
        Event.setName "org.uavcan.stm32_test_stm32f107"]
      [Event.nodeStart 0, Event.lowsyslog LogLine.checkingNetworkCompatibility,
        Event.checkNetworkCompatibility 0 ⟨true, 0⟩]
      rfl rfl).1 (by decide)).2.2,
    by decide,
    ((timeSync_failure_is_fatal Env.quiet 1 World.boot
      ⟨some ⟨0⟩, 1, 0, 0, 0, 0, 0, 0, 0, 0, 0, 0, 0, 0, 0⟩
      ⟨some ⟨0⟩, 1, 1, 1, 0, 0, 0, 0, 0, 0, 0, 0, 0, 0, 0⟩
      [Event.nodeConstruct 0, Event.setNodeID 64,
        Event.setName "org.uavcan.stm32_test_stm32f107"]
      [Event.nodeStart 0, Event.lowsyslog LogLine.checkingNetworkCompatibility,
        Event.checkNetworkCompatibility 0 ⟨true, 0⟩]
      rfl rfl).2 (by decide)).2.1⟩

/-- C5: in every trace of the node thread, `time_sync_slave.start()` is called
at most once; a call of it comes right after the construction of the time
synchronizer, which comes right after an iteration of the bring-up loop in
which `start()` returned a non-negative result and the check returned a
non-negative result with `isOk()` true; and every `node.spin` call is preceded
by a `time_sync_slave.start()` that returned a non-negative result. -/
theorem timeSync_started_once_after_bringUp (env : Env) (bound : Nat) (w : World) :
    (uavcan_node_thread.main env bound w).trace.countP Event.isTimeSyncStart ≤ 1 ∧
    (∀ pre post r,
      (uavcan_node_thread.main env bound w).trace = pre ++ Event.timeSyncSlaveStart r :: post →
      ∃ pre0 a b out,
        pre = pre0 ++ [Event.nodeStart a, Event.lowsyslog LogLine.checkingNetworkCompatibility,
          Event.checkNetworkCompatibility b out, Event.timeSyncSlaveConstruct] ∧
        0 ≤ a ∧ 0 ≤ b ∧ out.isOk = true) ∧
    (∀ pre post msec r,
      (uavcan_node_thread.main env bound w).trace = pre ++ Event.nodeSpin msec r :: post →
      ∃ r0, 0 ≤ r0 ∧ Event.timeSyncSlaveStart r0 ∈ pre) := by
  rcases thread_main_shape env bound w with hnone | ⟨t0, a, b, out, R, hshape, ha, hb, ho, h0, hR, hRneg⟩
  · refine ⟨?_, ?_, ?_⟩
    · have : (uavcan_node_thread.main env bound w).trace.countP Event.isTimeSyncStart = 0 := by
        rw [List.countP_eq_zero]
        intro e he
        simp [(hnone e he).1]
      omega
    · intro pre post r h
      have hm : Event.timeSyncSlaveStart r ∈ (uavcan_node_thread.main env bound w).trace := by
        rw [h]; simp
      have := (hnone _ hm).1
      simp [Event.isTimeSyncStart] at this
    · intro pre post msec r h
      have hm : Event.nodeSpin msec r ∈ (uavcan_node_thread.main env bound w).trace := by
        rw [h]; simp
      have := (hnone _ hm).2
      simp [Event.isNodeSpin] at this
  · have hA : ∀ e ∈ t0 ++ [Event.nodeStart a,
        Event.lowsyslog LogLine.checkingNetworkCompatibility,
        Event.checkNetworkCompatibility b out, Event.timeSyncSlaveConstruct],
        e.isTimeSyncStart = false ∧ e.isNodeSpin = false := by
      intro e he
      rcases List.mem_append.mp he with h | h
      · exact h0 e h
      · simp at h
        rcases h with rfl | rfl | rfl | rfl <;> exact ⟨rfl, rfl⟩
    refine ⟨?_, ?_, ?_⟩
    · rw [hshape, List.countP_append, List.countP_cons]
      have e1 : (t0 ++ [Event.nodeStart a,
          Event.lowsyslog LogLine.checkingNetworkCompatibility,
          Event.checkNetworkCompatibility b out,
          Event.timeSyncSlaveConstruct]).countP Event.isTimeSyncStart = 0 := by
        rw [List.countP_eq_zero]
        intro e he
        simp [(hA e he).1]
      have e2 : R.countP Event.isTimeSyncStart = 0 := by
        rw [List.countP_eq_zero]
        intro e he
        simp [hR e he]
      rw [e1, e2]
      simp [Event.isTimeSyncStart]
    · intro pre post r h
      rw [hshape] at h
      have hnot : Event.timeSyncSlaveStart r ∉ t0 ++ [Event.nodeStart a,
          Event.lowsyslog LogLine.checkingNetworkCompatibility,
          Event.checkNetworkCompatibility b out, Event.timeSyncSlaveConstruct] := by
        intro hm
        have := (hA _ hm).1
        simp [Event.isTimeSyncStart] at this
      obtain ⟨mid, hpre, hmid⟩ := split_of_not_mem _ _ _ _ _ h hnot
      cases mid with
      | nil =>
        refine ⟨t0, a, b, out, ?_, ha, hb, ho⟩
        rw [hpre, List.append_nil]
      | cons m mid =>
        simp at hmid
        have hm : Event.timeSyncSlaveStart r ∈ R := by
          rw [hmid.2]; simp
        have := hR _ hm
        simp [Event.isTimeSyncStart] at this
    · intro pre post msec r h
      rw [hshape] at h
      have hnot : Event.nodeSpin msec r ∉ t0 ++ [Event.nodeStart a,
          Event.lowsyslog LogLine.checkingNetworkCompatibility,
          Event.checkNetworkCompatibility b out, Event.timeSyncSlaveConstruct] := by
        intro hm
        have := (hA _ hm).2
        simp [Event.isNodeSpin] at this
      obtain ⟨mid, hpre, hmid⟩ := split_of_not_mem _ _ _ _ _ h hnot
      cases mid with
      | nil => simp at hmid
      | cons m mid =>
        simp at hmid
        obtain ⟨hm, hRest⟩ := hmid
        refine ⟨env.timeSyncSlaveStart, ?_, ?_⟩
        · by_contra hneg
          have hspin : Event.nodeSpin msec r ∈ R := by rw [hRest]; simp
          have := hRneg (by omega) _ hspin
          simp [Event.isNodeSpin] at this
        · rw [hpre, ← hm]
          simp

/-- C9: `getNode()` on the lazy-constructor slot: a call made when the slot is
constructed performs no construction, returns the object of the slot and
leaves the state as it is; starting from an unconstructed slot, the first call
constructs the `Node`, and for every `k ≥ 1`, `k` calls in a row construct it
exactly once, leave the slot constructed and all return that same `Node`. -/
theorem getNode_constructs_once (bound : Nat) (w : World) :
    (∀ n, w.node_ = some n → getNode bound w = ⟨[], some (n, w)⟩) ∧
    (w.node_ = none →
      getNode bound w =
        ⟨[Event.nodeConstruct w.constructions],
          some (⟨w.constructions⟩,
            { w with node_ := some ⟨w.constructions⟩,
                     constructions := w.constructions + 1 })⟩ ∧
      ∀ k, 1 ≤ k →
        callTimes getNode k bound w =
          ⟨[Event.nodeConstruct w.constructions],
            some (List.replicate k ⟨w.constructions⟩,
              { w with node_ := some ⟨w.constructions⟩,
                       constructions := w.constructions + 1 })⟩ ∧
        (callTimes getNode k bound w).trace.countP Event.isNodeConstruct = 1) := by
  refine ⟨fun n h => getNode_constructed bound w n h, ?_⟩
  intro h
  refine ⟨getNode_unconstructed bound w h, ?_⟩
  intro k hk
  obtain ⟨j, rfl⟩ : ∃ j, k = j + 1 := ⟨k - 1, by omega⟩
  have hrun : callTimes getNode (j + 1) bound w =
      ⟨[Event.nodeConstruct w.constructions],
        some (List.replicate (j + 1) ⟨w.constructions⟩,
          { w with node_ := some ⟨w.constructions⟩,
                   constructions := w.constructions + 1 })⟩ := by
    have hrest := callTimes_getNode_constructed bound j
      { w with node_ := some ⟨w.constructions⟩, constructions := w.constructions + 1 }
      ⟨w.constructions⟩ rfl
    simp [callTimes, Prog.bind, Prog.pure, getNode_unconstructed bound w h, hrest,
      List.replicate_succ]
  rw [hrun]
  exact ⟨rfl, rfl⟩

/-- Witness of C9: three calls of `getNode()` from power-on construct the
`Node` once and all return it. -/
theorem getNode_constructs_once_witness :
    World.boot.node_ = none ∧
    callTimes getNode 3 0 World.boot =
      ⟨[Event.nodeConstruct 0],
        some ([⟨0⟩, ⟨0⟩, ⟨0⟩], { World.boot with node_ := some ⟨0⟩, constructions := 1 })⟩ ∧
    (callTimes getNode 3 0 World.boot).trace.countP Event.isNodeConstruct = 1 :=
  ⟨rfl, ((getNode_constructs_once 0 World.boot).2 rfl).2 3 (by decide)⟩

/-- C6: the indicator loop of `::main()`, for every sequence of values of
`can.driver.hadActivity()`: under every bound `m` of outer cycles the loop has
not ended, and its trace is, cycle by cycle, 200 times (sample, LED write of
the sampled value, `usleep(25000)`) followed by one clock-diagnostic line.  So
the `k`-th LED write carries the `k`-th sampled value, `200 * m` samples have
been taken after `m` cycles, and `m` clock-diagnostic lines have been emitted,
each right after the 200th sample of its cycle. -/
theorem indicator_follows_activity (env : Env) (bound : Nat) (w : World) :
    (indicatorLoop env bound w).ret = none ∧
    (indicatorLoop env bound w).trace =
      (List.range bound).flatMap (fun m =>
        (List.range 200).flatMap (fun i =>
          [Event.hadActivity (env.hadActivity (w.hadActivityCalls + 200 * m + i)),
           Event.palWritePadLed (env.hadActivity (w.hadActivityCalls + 200 * m + i)),
           Event.usleep 25000]) ++
        [Event.lowsyslog (LogLine.utcClock
          (toUnsignedLong (env.getUtcMSec (w.utcReads + m) / 1000))
          (toLong (env.getPrevUtcAdjustmentUSec (w.prevAdjustmentReads + m)))
          (env.getUtcSpeedCorrectionPPM (w.speedCorrectionReads + m))
          (env.getUtcAjdustmentJumpCount (w.jumpCountReads + m)))]) ∧
    (indicatorLoop env bound w).trace.filterMap Event.sampled =
      (List.range (200 * bound)).map (fun k => env.hadActivity (w.hadActivityCalls + k)) ∧
    (indicatorLoop env bound w).trace.filterMap Event.ledWritten =
      (indicatorLoop env bound w).trace.filterMap Event.sampled ∧
    (indicatorLoop env bound w).trace.countP Event.isHadActivity = 200 * bound ∧
    (indicatorLoop env bound w).trace.countP Event.isUtcClockLog = bound := by
  have hs : (indicatorLoop env bound w).trace.filterMap Event.sampled =
      (List.range (200 * bound)).map (fun k => env.hadActivity (w.hadActivityCalls + k)) := by
    rw [indicatorLoop_run]
    simp only
    rw [filterMap_flatMap_range Event.sampled _ _ (cycleActions_sampled env w),
      flatMap_range_blocks (fun j => env.hadActivity j) w.hadActivityCalls 200 bound]
  have hl : (indicatorLoop env bound w).trace.filterMap Event.ledWritten =
      (List.range (200 * bound)).map (fun k => env.hadActivity (w.hadActivityCalls + k)) := by
    rw [indicatorLoop_run]
    simp only
    rw [filterMap_flatMap_range Event.ledWritten _ _ (cycleActions_ledWritten env w),
      flatMap_range_blocks (fun j => env.hadActivity j) w.hadActivityCalls 200 bound]
  refine ⟨?_, ?_, hs, hl.trans hs.symm, ?_, ?_⟩
  · rw [indicatorLoop_run]
  · rw [indicatorLoop_run]
    rfl
  · rw [indicatorLoop_run]
    simp only
    rw [countP_flatMap_range Event.isHadActivity _ 200
      (fun k => (cycleActions_counts env w k).1), Nat.mul_comm]
  · rw [indicatorLoop_run]
    simp only
    rw [countP_flatMap_range Event.isUtcClockLog _ 1
      (fun k => (cycleActions_counts env w k).2), Nat.mul_one]

/-- C7: `init()` returns the result of `can.init(1000000)` unchanged, and
`main()` starts the node thread if and only if that result is 0.  For every
non-zero result `r`, negative or positive, `main()` goes on with exactly
`die(r)`: it never comes back, never starts the thread and never samples the
activity flag.  For `r = 0` the thread is started exactly once, before every
activity sample, and `die` is not entered from `main()`. -/
theorem main_starts_thread_iff_init_zero (env : Env) (bound : Nat) (w : World) :
    init env bound w =
      ⟨[Event.halInit, Event.systemInit, Event.sdStart, Event.canInit 1000000 env.canInit],
        some (env.canInit, w)⟩ ∧
    ((∃ e ∈ (main env bound w).trace, e.isThreadStart = true) ↔ env.canInit = 0) ∧
    (env.canInit ≠ 0 →
      (main env bound w).ret = none ∧
      (main env bound w).trace =
        [Event.halInit, Event.systemInit, Event.sdStart, Event.canInit 1000000 env.canInit] ++
          (die env.canInit bound w).trace ∧
      (∀ e ∈ (main env bound w).trace, e.isThreadStart = false ∧ e.isHadActivity = false)) ∧
    (env.canInit = 0 →
      (main env bound w).trace =
        [Event.halInit, Event.systemInit, Event.sdStart, Event.canInit 1000000 env.canInit,
          Event.lowsyslog LogLine.startingTheUavcanThread,
          Event.threadStart Priority.LOWPRIO] ++ (indicatorLoop env bound w).trace ∧
      (main env bound w).trace.countP Event.isThreadStart = 1 ∧
      (∀ pre post b, (main env bound w).trace = pre ++ Event.hadActivity b :: post →
        Event.threadStart Priority.LOWPRIO ∈ pre) ∧
      (∀ e ∈ (main env bound w).trace, e.isDeadLog = false)) := by
  have hhalt : env.canInit ≠ 0 →
      ∀ e ∈ (main env bound w).trace, e.isThreadStart = false ∧ e.isHadActivity = false := by
    intro h e he
    rw [main_halted env bound w h] at he
    rcases List.mem_append.mp he with h' | h'
    · simp at h'
      rcases h' with rfl | rfl | rfl | rfl <;> exact ⟨rfl, rfl⟩
    · have := die_trace_not_others _ _ _ e h'
      exact ⟨this.2.2.2.1, this.2.2.2.2⟩
  refine ⟨init_run env bound w, ?_, ?_, ?_⟩
  · constructor
    · rintro ⟨e, he, hts⟩
      by_contra h
      have := (hhalt h e he).1
      rw [hts] at this
      cases this
    · intro h
      refine ⟨Event.threadStart Priority.LOWPRIO, ?_, rfl⟩
      rw [main_running env bound w h]
      simp
  · intro h
    refine ⟨?_, ?_, hhalt h⟩
    · rw [main_halted env bound w h]
    · rw [main_halted env bound w h]
  · intro h
    rw [main_running env bound w h]
    refine ⟨rfl, ?_, ?_, ?_⟩
    · simp only [List.countP_append]
      have e2 : (indicatorLoop env bound w).trace.countP Event.isThreadStart = 0 := by
        rw [List.countP_eq_zero]
        intro e he
        simp [(indicatorLoop_trace_not_others env bound w e he).1]
      rw [e2]
      simp [List.countP_cons, Event.isThreadStart]
    · intro pre post b hsplit
      have hnot : Event.hadActivity b ∉
          [Event.halInit, Event.systemInit, Event.sdStart, Event.canInit 1000000 env.canInit,
            Event.lowsyslog LogLine.startingTheUavcanThread,
            Event.threadStart Priority.LOWPRIO] := by
        simp
      obtain ⟨mid, hpre, _⟩ := split_of_not_mem _ _ _ _ _ hsplit hnot
      rw [hpre]
      simp
    · intro e he
      rcases List.mem_append.mp he with h' | h'
      · simp at h'
        rcases h' with rfl | rfl | rfl | rfl | rfl | rfl <;> rfl
      · exact (indicatorLoop_trace_not_others env bound w e h').2

/-- Witness of C7: `can.init(1000000)` returns the positive value 5: `main()`
enters `die(5)` and starts no thread; when it returns 0, the thread is started
once. -/
theorem main_starts_thread_iff_init_zero_witness :
    Env.canInitPositive.canInit ≠ 0 ∧
    (main Env.canInitPositive 1 World.boot).ret = none ∧
    (main Env.canInitPositive 1 World.boot).trace =
      [Event.halInit, Event.systemInit, Event.sdStart, Event.canInit 1000000 5] ++
        (die 5 1 World.boot).trace ∧
    (∀ e ∈ (main Env.canInitPositive 1 World.boot).trace,
      e.isThreadStart = false ∧ e.isHadActivity = false) ∧
    Env.quiet.canInit = 0 ∧
    (main Env.quiet 1 World.boot).trace.countP Event.isThreadStart = 1 :=
  ⟨by decide,
    ((main_starts_thread_iff_init_zero Env.canInitPositive 1 World.boot).2.2.1 (by decide)).1,
    ((main_starts_thread_iff_init_zero Env.canInitPositive 1 World.boot).2.2.1 (by decide)).2.1,
    ((main_starts_thread_iff_init_zero Env.canInitPositive 1 World.boot).2.2.1 (by decide)).2.2,
    rfl,
    ((main_starts_thread_iff_init_zero Env.quiet 1 World.boot).2.2.2 rfl).2.1⟩

end Stm32Test
